import Mathlib

/-!
Shallow embedding of the chess rules engine implemented in the `Chess`
class of `src/routes/+page.svelte` (the single source file of the
repository).  Pieces are the twelve piece characters of the source,
the grid is the `positions` array (a list of 8 rows of 8 cells),
coordinates are integers as in the source (rank `r`, file `f`, each
meaningful in `0..7`), and every operation of the engine is translated
function by function: `getLegal`, `isInCheck`, `isAttacked`,
`findKing`, `movePiece`, `restart`, plus the turn and game-over gating
performed by the mouse handlers.
-/

/-- Piece color: `w` for uppercase characters, `b` for lowercase ones. -/
inductive Color where
  | w
  | b
deriving DecidableEq, Repr

/-- The opposite color, as computed by the ternaries of the source. -/
def Color.flip : Color → Color
  | .w => .b
  | .b => .w

/-- Piece kind, the lowercase letter of the source characters. -/
inductive Kind where
  | p
  | n
  | b
  | r
  | q
  | k
deriving DecidableEq, Repr

/-- A piece character of the source, split into kind and color. -/
structure Piece where
  kind : Kind
  color : Color
deriving DecidableEq, Repr

/-- A grid cell: `none` is the empty string of the source. -/
abbrev Cell := Option Piece

/-- A square, the `{r, f}` objects of the source.  Integer coordinates,
    since the source freely forms `r + dir` and `f - 1` before checking
    bounds. -/
structure Sq where
  r : Int
  f : Int
deriving DecidableEq, Repr

/-- The grid: the `positions` array of row lists. -/
abbrev Grid := List (List Cell)

/-- One value per color, used for the `kingMoved` and `rookMoved`
    objects of the source. -/
structure ByColor (α : Type) where
  w : α
  b : α
deriving DecidableEq, Repr

/-- Field access `obj[color]` of the source. -/
def ByColor.get (m : ByColor α) : Color → α
  | .w => m.w
  | .b => m.b

/-- The `{a, h}` rook flags of one color. -/
structure RookFlags where
  a : Bool
  h : Bool
deriving DecidableEq, Repr

/-- Game-over type: the `gameOverType` strings of the source. -/
inductive GOType where
  | checkmate
  | stalemate
deriving DecidableEq, Repr

/-- The chess-rule state held by the `Chess` class (the DOM related
    fields `boardEl`, `currentDrag` and `size` carry no rule state and
    are not modelled). -/
structure GameState where
  positions : Grid
  kingMoved : ByColor Bool
  rookMoved : ByColor RookFlags
  enPassantTarget : Option Sq
  turn : Color
  gameOver : Bool
  gameOverType : Option GOType
  gameOverColor : Option Sq
deriving DecidableEq, Repr

/-- Read `positions[r][f]`; out-of-range reads yield `none` (the source
    only reads inside the board, each read being guarded by `inB`). -/
def getCell (g : Grid) (r f : Int) : Cell :=
  match r, f with
  | Int.ofNat i, Int.ofNat j => (g.getD i []).getD j none
  | _, _ => none

/-- Write `positions[r][f] = v`; out-of-range writes are dropped. -/
def setCell (g : Grid) (r f : Int) (v : Cell) : Grid :=
  match r, f with
  | Int.ofNat i, Int.ofNat j => g.set i ((g.getD i []).set j v)
  | _, _ => g

/-- The `inB` bounds helper of `getLegal`. -/
def inB (nr nf : Int) : Bool :=
  decide (0 ≤ nr) && decide (nr < 8) && decide (0 ≤ nf) && decide (nf < 8)

/-- All 64 board squares in the row-major order of the `for` loops of
    the source. -/
def allSquares : List Sq :=
  (List.range 8).flatMap fun r => (List.range 8).map fun f => ⟨Int.ofNat r, Int.ofNat f⟩

/-- The grid is a well-formed 8 by 8 board. -/
def GridWF (g : Grid) : Prop :=
  g.length = 8 ∧ ∀ i : Nat, i < 8 → (g.getD i []).length = 8

/-- The `isEmp` helper of `getLegal`: the cell holds the empty string. -/
def isEmp (g : Grid) (nr nf : Int) : Bool :=
  decide (getCell g nr nf = none)

/-- The `isEnemy` helper of `getLegal`: occupied and of the color
    opposite to the moving piece. -/
def isEnemy (g : Grid) (t : Piece) (nr nf : Int) : Bool :=
  match getCell g nr nf with
  | none => false
  | some q => decide (q.color ≠ t.color)

/-- Sliding in direction `(dr, df)` for bishops, rooks and queens: the
    `while (inB ...)` loop of the source, with fuel 8 (more than the
    board diameter, so the fuel never runs out before the loop stops). -/
def slideAux (g : Grid) (t : Piece) (nr nf dr df : Int) : Nat → List Sq
  | 0 => []
  | fuel + 1 =>
    if inB nr nf then
      if isEmp g nr nf then
        ⟨nr, nf⟩ :: slideAux g t (nr + dr) (nf + df) dr df fuel
      else if isEnemy g t nr nf then [⟨nr, nf⟩]
      else []
    else []

/-- One full slide from `(r, f)` in direction `(dr, df)`. -/
def slide (g : Grid) (t : Piece) (r f dr df : Int) : List Sq :=
  slideAux g t (r + dr) (f + df) dr df 8

/-- Pawn advance direction: white moves toward rank 0, black toward
    rank 7. -/
def pawnDir : Color → Int
  | .w => -1
  | .b => 1

/-- Pawn starting rank. -/
def pawnStart : Color → Int
  | .w => 6
  | .b => 1

/-- The pattern-move block of `getLegal` (pawn, knight, adjacent king
    moves, and slides), without the castling block and without the
    king-safety filter: exactly what `getLegal(from, type, true)`
    computes. -/
def pseudoMoves (g : Grid) (ep : Option Sq) (fr : Sq) (t : Piece) : List Sq :=
  let r := fr.r
  let f := fr.f
  match t.kind with
  | .p =>
    let dir := pawnDir t.color
    let sr := pawnStart t.color
    let one := r + dir
    let two := r + dir * 2
    (if inB one f && isEmp g one f then [⟨one, f⟩] else []) ++
    (if decide (r = sr) && inB two f && isEmp g one f && isEmp g two f then
      [⟨two, f⟩] else []) ++
    (([-1, 1] : List Int).flatMap fun df =>
      let nr := r + dir
      let nf := f + df
      if inB nr nf &&
          (isEnemy g t nr nf || decide (ep = some ⟨nr, nf⟩)) then
        [⟨nr, nf⟩] else [])
  | .n =>
    ([(2, 1), (2, -1), (-2, 1), (-2, -1), (1, 2), (1, -2), (-1, 2), (-1, -2)] :
        List (Int × Int)).flatMap fun d =>
      let nr := r + d.1
      let nf := f + d.2
      if inB nr nf && (isEmp g nr nf || isEnemy g t nr nf) then [⟨nr, nf⟩] else []
  | .k =>
    ([-1, 0, 1] : List Int).flatMap fun dr =>
      ([-1, 0, 1] : List Int).flatMap fun df =>
        let nr := r + dr
        let nf := f + df
        if (decide (dr ≠ 0) || decide (df ≠ 0)) && inB nr nf &&
            (isEmp g nr nf || isEnemy g t nr nf) then
          [⟨nr, nf⟩] else []
  | .b =>
    ([(1, 1), (1, -1), (-1, 1), (-1, -1)] : List (Int × Int)).flatMap fun d =>
      slide g t r f d.1 d.2
  | .q =>
    ([(1, 1), (1, -1), (-1, 1), (-1, -1), (1, 0), (-1, 0), (0, 1), (0, -1)] :
        List (Int × Int)).flatMap fun d =>
      slide g t r f d.1 d.2
  | .r =>
    ([(1, 0), (-1, 0), (0, 1), (0, -1)] : List (Int × Int)).flatMap fun d =>
      slide g t r f d.1 d.2

/-- `findKing(color)`: first square in row-major scan holding the king
    of the given color, defaulting to `{r: 0, f: 0}`. -/
def findKing (g : Grid) (c : Color) : Sq :=
  (allSquares.find? fun q =>
    decide (getCell g q.r q.f = some ⟨Kind.k, c⟩)).getD ⟨0, 0⟩

/-- `isInCheck(color)`: some enemy piece has the king square among its
    attack-pattern moves (it queries `getLegal` with
    `ignoreCheck = true`, embedded here as `pseudoMoves`). -/
def isInCheck (s : GameState) (c : Color) : Bool :=
  let kq := findKing s.positions c
  let enemy := c.flip
  allSquares.any fun q =>
    match getCell s.positions q.r q.f with
    | none => false
    | some p =>
      decide (p.color = enemy) &&
      (pseudoMoves s.positions s.enPassantTarget q p).contains kq

/-- `isAttacked(r, f, attackerColor)`: the same scan for an arbitrary
    target square. -/
def isAttacked (s : GameState) (r f : Int) (attackerColor : Color) : Bool :=
  allSquares.any fun q =>
    match getCell s.positions q.r q.f with
    | none => false
    | some p =>
      decide (p.color = attackerColor) &&
      (pseudoMoves s.positions s.enPassantTarget q p).contains ⟨r, f⟩

/-- The castling block of `getLegal` (reached only for kings with
    `ignoreCheck = false`).  The source computes the color from the
    piece character, which for a king equals `t.color`. -/
def castleMoves (s : GameState) (fr : Sq) (t : Piece) : List Sq :=
  let r := fr.r
  let f := fr.f
  let color := t.color
  let enemy := color.flip
  if !(s.kingMoved.get color) && !(isInCheck s color) then
    (if !(s.rookMoved.get color).h && inB r (f + 2) &&
        isEmp s.positions r (f + 1) && isEmp s.positions r (f + 2) &&
        !(isAttacked s r (f + 1) enemy) && !(isAttacked s r (f + 2) enemy) then
      [⟨r, f + 2⟩] else []) ++
    (if !(s.rookMoved.get color).a && inB r (f - 3) &&
        isEmp s.positions r (f - 1) && isEmp s.positions r (f - 2) &&
        isEmp s.positions r (f - 3) &&
        !(isAttacked s r (f - 1) enemy) && !(isAttacked s r (f - 2) enemy) then
      [⟨r, f - 2⟩] else [])
  else []

/-- The hypothetical board of the king-safety filter: move the piece,
    clear the origin (`copy[to.r][to.f] = copy[r][f]; copy[r][f] = ""`). -/
def moveCopy (g : Grid) (fr dst : Sq) : Grid :=
  setCell (setCell g dst.r dst.f (getCell g fr.r fr.f)) fr.r fr.f none

/-- `getLegal(from, type, ignoreCheck)`.  With `ignoreCheck = true` it
    is the pattern block; with `ignoreCheck = false` the castling block
    is appended for kings and the king-safety filter is applied. -/
def getLegal (s : GameState) (fr : Sq) (t : Piece) (ignoreCheck : Bool) : List Sq :=
  if ignoreCheck then pseudoMoves s.positions s.enPassantTarget fr t
  else
    (pseudoMoves s.positions s.enPassantTarget fr t ++
      (if t.kind = Kind.k then castleMoves s fr t else [])).filter fun dst =>
      !(isInCheck { s with positions := moveCopy s.positions fr dst } t.color)

theorem getLegal_true (s : GameState) (fr : Sq) (t : Piece) :
    getLegal s fr t true = pseudoMoves s.positions s.enPassantTarget fr t := rfl

/-- Kind test on a cell (`t.toLowerCase() === ...` on a nonempty cell;
    the empty string matches no kind). -/
def cellIsKind (t : Cell) (kd : Kind) : Bool :=
  match t with
  | some p => decide (p.kind = kd)
  | none => false

/-- Color of a cell as computed by `t === t.toUpperCase() ? "w" : "b"`
    (the empty string compares equal to its uppercase form, hence `w`). -/
def cellColor (t : Cell) : Color :=
  match t with
  | some p => p.color
  | none => .w

/-- Update the entry of one color. -/
def ByColor.set (m : ByColor α) (c : Color) (v : α) : ByColor α :=
  match c with
  | .w => { m with w := v }
  | .b => { m with b := v }

/-- Steps 1 to 8 of `movePiece`: en passant capture, en passant target
    update, piece relocation, castling rook relocation, moved flags,
    promotion, and the turn flip.  The game-over fields are written only
    by the status block, embedded separately as `updateStatus`. -/
def applyEffects (s : GameState) (fr dst : Sq) : GameState :=
  let t := getCell s.positions fr.r fr.f
  let color := cellColor t
  let pos1 :=
    if cellIsKind t .p && decide (s.enPassantTarget = some dst) then
      setCell s.positions fr.r dst.f none
    else s.positions
  let ep1 : Option Sq :=
    if cellIsKind t .p && decide ((dst.r - fr.r).natAbs = 2) then
      some ⟨(fr.r + dst.r) / 2, fr.f⟩
    else none
  let pos2 := setCell (setCell pos1 dst.r dst.f t) fr.r fr.f none
  let castled : Grid × ByColor RookFlags :=
    if cellIsKind t .k && decide ((dst.f - fr.f).natAbs = 2) then
      let homeRow : Int := if color = .w then 7 else 0
      let rookChar : Cell := some ⟨.r, color⟩
      if dst.f > fr.f then
        (setCell (setCell pos2 homeRow 5 rookChar) homeRow 7 none,
         s.rookMoved.set color { s.rookMoved.get color with h := true })
      else
        (setCell (setCell pos2 homeRow 3 rookChar) homeRow 0 none,
         s.rookMoved.set color { s.rookMoved.get color with a := true })
    else (pos2, s.rookMoved)
  let flags : ByColor Bool × ByColor RookFlags :=
    match t with
    | some ⟨Kind.k, Color.w⟩ => ({ s.kingMoved with w := true }, castled.2)
    | some ⟨Kind.k, Color.b⟩ => ({ s.kingMoved with b := true }, castled.2)
    | some ⟨Kind.r, Color.w⟩ =>
      (s.kingMoved,
       { castled.2 with w :=
          { a := if fr.r = 7 ∧ fr.f = 0 then true else (castled.2).w.a,
            h := if fr.r = 7 ∧ fr.f = 7 then true else (castled.2).w.h } })
    | some ⟨Kind.r, Color.b⟩ =>
      (s.kingMoved,
       { castled.2 with b :=
          { a := if fr.r = 0 ∧ fr.f = 0 then true else (castled.2).b.a,
            h := if fr.r = 0 ∧ fr.f = 7 then true else (castled.2).b.h } })
    | _ => (s.kingMoved, castled.2)
  let pos4 :=
    if decide (t = some ⟨Kind.p, Color.w⟩) && decide (dst.r = 0) then
      setCell castled.1 dst.r dst.f (some ⟨Kind.q, Color.w⟩)
    else castled.1
  let pos5 :=
    if decide (t = some ⟨Kind.p, Color.b⟩) && decide (dst.r = 7) then
      setCell pos4 dst.r dst.f (some ⟨Kind.q, Color.b⟩)
    else pos4
  { positions := pos5, kingMoved := flags.1, rookMoved := flags.2,
    enPassantTarget := ep1, turn := s.turn.flip, gameOver := s.gameOver,
    gameOverType := s.gameOverType, gameOverColor := s.gameOverColor }

/-- The `anyMoves` chain of `movePiece`: some piece of the side to move
    has a nonempty filtered move list. -/
def hasAnyMove (s : GameState) : Bool :=
  ((allSquares.filterMap fun q =>
      match getCell s.positions q.r q.f with
      | some p => some (q, p)
      | none => none).filter fun qp => decide (qp.2.color = s.turn)).any
    fun qp => decide (0 < (getLegal s qp.1 qp.2 false).length)

/-- The terminal-status block at the end of `movePiece`, evaluated for
    the new side to move. -/
def updateStatus (s : GameState) : GameState :=
  if isInCheck s s.turn && !hasAnyMove s then
    { s with gameOver := true, gameOverType := some GOType.checkmate,
             gameOverColor := some (findKing s.positions s.turn) }
  else if !(isInCheck s s.turn) && !hasAnyMove s then
    { s with gameOver := true, gameOverType := some GOType.stalemate,
             gameOverColor := some (findKing s.positions s.turn) }
  else s

/-- `movePiece(from, to)`: the effects followed by the terminal-status
    recomputation. -/
def movePiece (s : GameState) (fr dst : Sq) : GameState :=
  updateStatus (applyEffects s fr dst)

/-- The `initialPositions` array of the source. -/
def initialPositions : Grid :=
  [[some ⟨.r, .b⟩, some ⟨.n, .b⟩, some ⟨.b, .b⟩, some ⟨.q, .b⟩,
    some ⟨.k, .b⟩, some ⟨.b, .b⟩, some ⟨.n, .b⟩, some ⟨.r, .b⟩],
   [some ⟨.p, .b⟩, some ⟨.p, .b⟩, some ⟨.p, .b⟩, some ⟨.p, .b⟩,
    some ⟨.p, .b⟩, some ⟨.p, .b⟩, some ⟨.p, .b⟩, some ⟨.p, .b⟩],
   [none, none, none, none, none, none, none, none],
   [none, none, none, none, none, none, none, none],
   [none, none, none, none, none, none, none, none],
   [none, none, none, none, none, none, none, none],
   [some ⟨.p, .w⟩, some ⟨.p, .w⟩, some ⟨.p, .w⟩, some ⟨.p, .w⟩,
    some ⟨.p, .w⟩, some ⟨.p, .w⟩, some ⟨.p, .w⟩, some ⟨.p, .w⟩],
   [some ⟨.r, .w⟩, some ⟨.n, .w⟩, some ⟨.b, .w⟩, some ⟨.q, .w⟩,
    some ⟨.k, .w⟩, some ⟨.b, .w⟩, some ⟨.n, .w⟩, some ⟨.r, .w⟩]]

/-- The state built by the `Chess` constructor. -/
def initialState : GameState :=
  { positions := initialPositions,
    kingMoved := ⟨false, false⟩,
    rookMoved := ⟨⟨false, false⟩, ⟨false, false⟩⟩,
    enPassantTarget := none,
    turn := .w,
    gameOver := false,
    gameOverType := none,
    gameOverColor := none }

/-- `restart()`: every rule-state field is reset to its constructor
    value, whatever the current state is. -/
def restart (_s : GameState) : GameState :=
  { positions := initialPositions,
    enPassantTarget := none,
    turn := .w,
    gameOver := false,
    gameOverType := none,
    gameOverColor := none,
    kingMoved := ⟨false, false⟩,
    rookMoved := ⟨⟨false, false⟩, ⟨false, false⟩⟩ }

/-- The moves the input layer generates for a click on a square:
    `_onMouseDown` returns early when the game is over or the piece is
    not of the side to move. -/
def clickMoves (s : GameState) (fr : Sq) : List Sq :=
  match getCell s.positions fr.r fr.f with
  | none => []
  | some p =>
    if s.gameOver then []
    else if p.color ≠ s.turn then []
    else getLegal s fr p false

/-- A full user move attempt: the `_onMouseDown` gating (game over,
    turn, nonempty move list) followed by the `_onMouseUp` membership
    test and `movePiece` call. -/
def tryMove (s : GameState) (fr dst : Sq) : GameState :=
  match getCell s.positions fr.r fr.f with
  | none => s
  | some p =>
    if s.gameOver then s
    else if p.color ≠ s.turn then s
    else
      let legal := getLegal s fr p false
      if legal.isEmpty then s
      else if dst ∈ legal then movePiece s fr dst
      else s

/-- State-passing embedding of the king-safety filter of `getLegal`:
    per candidate, the source swaps `this.positions` to the hypothetical
    copy, queries `isInCheck`, and swaps the original back.  The state
    is threaded explicitly so the swap-and-restore is observable. -/
def checkFilterLoop (fr : Sq) (c : Color) : List Sq → GameState → List Sq × GameState
  | [], st => ([], st)
  | dst :: rest, st =>
    let copy := moveCopy st.positions fr dst
    let tmp := st.positions
    let st1 := { st with positions := copy }
    let inChk := isInCheck st1 c
    let st2 := { st1 with positions := tmp }
    let res := checkFilterLoop fr c rest st2
    (if !inChk then dst :: res.1 else res.1, res.2)

/-- `getLegal` with the temporary board mutation made explicit: returns
    the move list together with the state as left after the call. -/
def getLegalSt (s : GameState) (fr : Sq) (t : Piece) (ignoreCheck : Bool) :
    List Sq × GameState :=
  if ignoreCheck then (pseudoMoves s.positions s.enPassantTarget fr t, s)
  else
    checkFilterLoop fr t.color
      (pseudoMoves s.positions s.enPassantTarget fr t ++
        (if t.kind = Kind.k then castleMoves s fr t else [])) s

/-- All filtered legal moves of one color, as from-square and
    destination pairs. -/
def movesOf (s : GameState) (c : Color) : List (Sq × Sq) :=
  allSquares.flatMap fun q =>
    match getCell s.positions q.r q.f with
    | some p =>
      if p.color = c then (getLegal s q p false).map fun m => (q, m) else []
    | none => []

/-- Number of kings of one color on the board. -/
def kingCount (s : GameState) (c : Color) : Nat :=
  (allSquares.filter fun q =>
    decide (getCell s.positions q.r q.f = some ⟨Kind.k, c⟩)).length

/-- Some piece of the given color has at least one filtered legal move. -/
def HasLegalMove (s : GameState) (c : Color) : Prop :=
  ∃ (q : Sq) (p : Piece), 0 ≤ q.r ∧ q.r < 8 ∧ 0 ≤ q.f ∧ q.f < 8 ∧
    getCell s.positions q.r q.f = some p ∧ p.color = c ∧
    getLegal s q p false ≠ []

/-- States reachable from the initial position by applying, while the
    game is not over, only moves that `getLegal` (with
    `ignoreCheck = false`) returns for a piece of the side to move. -/
inductive Reachable : GameState → Prop where
  | init : Reachable initialState
  | step (s : GameState) (fr dst : Sq) (p : Piece) :
      Reachable s → s.gameOver = false →
      getCell s.positions fr.r fr.f = some p → p.color = s.turn →
      dst ∈ getLegal s fr p false →
      Reachable (movePiece s fr dst)


/-! Concrete intermediate states of two complete games used below, each
    equal to the result of the corresponding chain of movePiece calls from
    the initial state (verified move by move in the reachability proofs). -/


def c1s1 : GameState :=
  { positions := [[some { kind := Kind.r, color := Color.b },
                  some { kind := Kind.n, color := Color.b },
                  some { kind := Kind.b, color := Color.b },
                  some { kind := Kind.q, color := Color.b },
                  some { kind := Kind.k, color := Color.b },
                  some { kind := Kind.b, color := Color.b },
                  some { kind := Kind.n, color := Color.b },
                  some { kind := Kind.r, color := Color.b }],
                 [some { kind := Kind.p, color := Color.b },
                  some { kind := Kind.p, color := Color.b },
                  some { kind := Kind.p, color := Color.b },
                  some { kind := Kind.p, color := Color.b },
                  some { kind := Kind.p, color := Color.b },
                  some { kind := Kind.p, color := Color.b },
                  some { kind := Kind.p, color := Color.b },
                  some { kind := Kind.p, color := Color.b }],
                 [none, none, none, none, none, none, none, none],
                 [none, none, none, none, none, none, none, none],
                 [none, none, none, none, none, none, none, some { kind := Kind.p, color := Color.w }],
                 [none, none, none, none, none, none, none, none],
                 [some { kind := Kind.p, color := Color.w },
                  some { kind := Kind.p, color := Color.w },
                  some { kind := Kind.p, color := Color.w },
                  some { kind := Kind.p, color := Color.w },
                  some { kind := Kind.p, color := Color.w },
                  some { kind := Kind.p, color := Color.w },
                  some { kind := Kind.p, color := Color.w },
                  none],
                 [some { kind := Kind.r, color := Color.w },
                  some { kind := Kind.n, color := Color.w },
                  some { kind := Kind.b, color := Color.w },
                  some { kind := Kind.q, color := Color.w },
                  some { kind := Kind.k, color := Color.w },
                  some { kind := Kind.b, color := Color.w },
                  some { kind := Kind.n, color := Color.w },
                  some { kind := Kind.r, color := Color.w }]],
    kingMoved := { w := false, b := false },
    rookMoved := { w := { a := false, h := false }, b := { a := false, h := false } },
    enPassantTarget := some { r := 5, f := 7 },
    turn := Color.b,
    gameOver := false,
    gameOverType := none,
    gameOverColor := none }

def c1s2 : GameState :=
  { positions := [[some { kind := Kind.r, color := Color.b },
                  some { kind := Kind.n, color := Color.b },
                  some { kind := Kind.b, color := Color.b },
                  some { kind := Kind.q, color := Color.b },
                  some { kind := Kind.k, color := Color.b },
                  some { kind := Kind.b, color := Color.b },
                  some { kind := Kind.n, color := Color.b },
                  some { kind := Kind.r, color := Color.b }],
                 [some { kind := Kind.p, color := Color.b },
                  some { kind := Kind.p, color := Color.b },
                  some { kind := Kind.p, color := Color.b },
                  some { kind := Kind.p, color := Color.b },
                  some { kind := Kind.p, color := Color.b },
                  some { kind := Kind.p, color := Color.b },
                  none,
                  some { kind := Kind.p, color := Color.b }],
                 [none, none, none, none, none, none, none, none],
                 [none, none, none, none, none, none, some { kind := Kind.p, color := Color.b }, none],
                 [none, none, none, none, none, none, none, some { kind := Kind.p, color := Color.w }],
                 [none, none, none, none, none, none, none, none],
                 [some { kind := Kind.p, color := Color.w },
                  some { kind := Kind.p, color := Color.w },
                  some { kind := Kind.p, color := Color.w },
                  some { kind := Kind.p, color := Color.w },
                  some { kind := Kind.p, color := Color.w },
                  some { kind := Kind.p, color := Color.w },
                  some { kind := Kind.p, color := Color.w },
                  none],
                 [some { kind := Kind.r, color := Color.w },
                  some { kind := Kind.n, color := Color.w },
                  some { kind := Kind.b, color := Color.w },
                  some { kind := Kind.q, color := Color.w },
                  some { kind := Kind.k, color := Color.w },
                  some { kind := Kind.b, color := Color.w },
                  some { kind := Kind.n, color := Color.w },
                  some { kind := Kind.r, color := Color.w }]],
    kingMoved := { w := false, b := false },
    rookMoved := { w := { a := false, h := false }, b := { a := false, h := false } },
    enPassantTarget := some { r := 2, f := 6 },
    turn := Color.w,
    gameOver := false,
    gameOverType := none,
    gameOverColor := none }

def c1s3 : GameState :=
  { positions := [[some { kind := Kind.r, color := Color.b },
                  some { kind := Kind.n, color := Color.b },
                  some { kind := Kind.b, color := Color.b },
                  some { kind := Kind.q, color := Color.b },
                  some { kind := Kind.k, color := Color.b },
                  some { kind := Kind.b, color := Color.b },
                  some { kind := Kind.n, color := Color.b },
                  some { kind := Kind.r, color := Color.b }],
                 [some { kind := Kind.p, color := Color.b },
                  some { kind := Kind.p, color := Color.b },
                  some { kind := Kind.p, color := Color.b },
                  some { kind := Kind.p, color := Color.b },
                  some { kind := Kind.p, color := Color.b },
                  some { kind := Kind.p, color := Color.b },
                  none,
                  some { kind := Kind.p, color := Color.b }],
                 [none, none, none, none, none, none, none, none],
                 [none, none, none, none, none, none, some { kind := Kind.p, color := Color.w }, none],
                 [none, none, none, none, none, none, none, none],
                 [none, none, none, none, none, none, none, none],
                 [some { kind := Kind.p, color := Color.w },
                  some { kind := Kind.p, color := Color.w },
                  some { kind := Kind.p, color := Color.w },
                  some { kind := Kind.p, color := Color.w },
                  some { kind := Kind.p, color := Color.w },
                  some { kind := Kind.p, color := Color.w },
                  some { kind := Kind.p, color := Color.w },
                  none],
                 [some { kind := Kind.r, color := Color.w },
                  some { kind := Kind.n, color := Color.w },
                  some { kind := Kind.b, color := Color.w },
                  some { kind := Kind.q, color := Color.w },
                  some { kind := Kind.k, color := Color.w },
                  some { kind := Kind.b, color := Color.w },
                  some { kind := Kind.n, color := Color.w },
                  some { kind := Kind.r, color := Color.w }]],
    kingMoved := { w := false, b := false },
    rookMoved := { w := { a := false, h := false }, b := { a := false, h := false } },
    enPassantTarget := none,
    turn := Color.b,
    gameOver := false,
    gameOverType := none,
    gameOverColor := none }

def c1s4 : GameState :=
  { positions := [[some { kind := Kind.r, color := Color.b },
                  some { kind := Kind.n, color := Color.b },
                  some { kind := Kind.b, color := Color.b },
                  some { kind := Kind.q, color := Color.b },
                  some { kind := Kind.k, color := Color.b },
                  some { kind := Kind.b, color := Color.b },
                  some { kind := Kind.n, color := Color.b },
                  some { kind := Kind.r, color := Color.b }],
                 [some { kind := Kind.p, color := Color.b },
                  some { kind := Kind.p, color := Color.b },
                  some { kind := Kind.p, color := Color.b },
                  some { kind := Kind.p, color := Color.b },
                  some { kind := Kind.p, color := Color.b },
                  some { kind := Kind.p, color := Color.b },
                  none,
                  none],
                 [none, none, none, none, none, none, none, none],
                 [none,
                  none,
                  none,
                  none,
                  none,
                  none,
                  some { kind := Kind.p, color := Color.w },
                  some { kind := Kind.p, color := Color.b }],
                 [none, none, none, none, none, none, none, none],
                 [none, none, none, none, none, none, none, none],
                 [some { kind := Kind.p, color := Color.w },
                  some { kind := Kind.p, color := Color.w },
                  some { kind := Kind.p, color := Color.w },
                  some { kind := Kind.p, color := Color.w },
                  some { kind := Kind.p, color := Color.w },
                  some { kind := Kind.p, color := Color.w },
                  some { kind := Kind.p, color := Color.w },
                  none],
                 [some { kind := Kind.r, color := Color.w },
                  some { kind := Kind.n, color := Color.w },
                  some { kind := Kind.b, color := Color.w },
                  some { kind := Kind.q, color := Color.w },
                  some { kind := Kind.k, color := Color.w },
                  some { kind := Kind.b, color := Color.w },
                  some { kind := Kind.n, color := Color.w },
                  some { kind := Kind.r, color := Color.w }]],
    kingMoved := { w := false, b := false },
    rookMoved := { w := { a := false, h := false }, b := { a := false, h := false } },
    enPassantTarget := some { r := 2, f := 7 },
    turn := Color.w,
    gameOver := false,
    gameOverType := none,
    gameOverColor := none }

def c1s5 : GameState :=
  { positions := [[some { kind := Kind.r, color := Color.b },
                  some { kind := Kind.n, color := Color.b },
                  some { kind := Kind.b, color := Color.b },
                  some { kind := Kind.q, color := Color.b },
                  some { kind := Kind.k, color := Color.b },
                  some { kind := Kind.b, color := Color.b },
                  some { kind := Kind.n, color := Color.b },
                  some { kind := Kind.r, color := Color.b }],
                 [some { kind := Kind.p, color := Color.b },
                  some { kind := Kind.p, color := Color.b },
                  some { kind := Kind.p, color := Color.b },
                  some { kind := Kind.p, color := Color.b },
                  some { kind := Kind.p, color := Color.b },
                  some { kind := Kind.p, color := Color.b },
                  none,
                  none],
                 [none, none, none, none, none, none, none, none],
                 [none,
                  none,
                  none,
                  none,
                  none,
                  none,
                  some { kind := Kind.p, color := Color.w },
                  some { kind := Kind.p, color := Color.b }],
                 [none, none, none, none, none, none, none, none],
                 [some { kind := Kind.p, color := Color.w }, none, none, none, none, none, none, none],
                 [none,
                  some { kind := Kind.p, color := Color.w },
                  some { kind := Kind.p, color := Color.w },
                  some { kind := Kind.p, color := Color.w },
                  some { kind := Kind.p, color := Color.w },
                  some { kind := Kind.p, color := Color.w },
                  some { kind := Kind.p, color := Color.w },
                  none],
                 [some { kind := Kind.r, color := Color.w },
                  some { kind := Kind.n, color := Color.w },
                  some { kind := Kind.b, color := Color.w },
                  some { kind := Kind.q, color := Color.w },
                  some { kind := Kind.k, color := Color.w },
                  some { kind := Kind.b, color := Color.w },
                  some { kind := Kind.n, color := Color.w },
                  some { kind := Kind.r, color := Color.w }]],
    kingMoved := { w := false, b := false },
    rookMoved := { w := { a := false, h := false }, b := { a := false, h := false } },
    enPassantTarget := none,
    turn := Color.b,
    gameOver := false,
    gameOverType := none,
    gameOverColor := none }

def c1s6 : GameState :=
  { positions := [[some { kind := Kind.r, color := Color.b },
                  some { kind := Kind.n, color := Color.b },
                  some { kind := Kind.b, color := Color.b },
                  some { kind := Kind.q, color := Color.b },
                  some { kind := Kind.k, color := Color.b },
                  some { kind := Kind.b, color := Color.b },
                  some { kind := Kind.n, color := Color.b },
                  some { kind := Kind.r, color := Color.b }],
                 [some { kind := Kind.p, color := Color.b },
                  some { kind := Kind.p, color := Color.b },
                  some { kind := Kind.p, color := Color.b },
                  some { kind := Kind.p, color := Color.b },
                  some { kind := Kind.p, color := Color.b },
                  some { kind := Kind.p, color := Color.b },
                  none,
                  none],
                 [none, none, none, none, none, none, none, none],
                 [none, none, none, none, none, none, some { kind := Kind.p, color := Color.w }, none],
                 [none, none, none, none, none, none, none, some { kind := Kind.p, color := Color.b }],
                 [some { kind := Kind.p, color := Color.w }, none, none, none, none, none, none, none],
                 [none,
                  some { kind := Kind.p, color := Color.w },
                  some { kind := Kind.p, color := Color.w },
                  some { kind := Kind.p, color := Color.w },
                  some { kind := Kind.p, color := Color.w },
                  some { kind := Kind.p, color := Color.w },
                  some { kind := Kind.p, color := Color.w },
                  none],
                 [some { kind := Kind.r, color := Color.w },
                  some { kind := Kind.n, color := Color.w },
                  some { kind := Kind.b, color := Color.w },
                  some { kind := Kind.q, color := Color.w },
                  some { kind := Kind.k, color := Color.w },
                  some { kind := Kind.b, color := Color.w },
                  some { kind := Kind.n, color := Color.w },
                  some { kind := Kind.r, color := Color.w }]],
    kingMoved := { w := false, b := false },
    rookMoved := { w := { a := false, h := false }, b := { a := false, h := false } },
    enPassantTarget := none,
    turn := Color.w,
    gameOver := false,
    gameOverType := none,
    gameOverColor := none }

def c1s7 : GameState :=
  { positions := [[some { kind := Kind.r, color := Color.b },
                  some { kind := Kind.n, color := Color.b },
                  some { kind := Kind.b, color := Color.b },
                  some { kind := Kind.q, color := Color.b },
                  some { kind := Kind.k, color := Color.b },
                  some { kind := Kind.b, color := Color.b },
                  some { kind := Kind.n, color := Color.b },
                  some { kind := Kind.r, color := Color.b }],
                 [some { kind := Kind.p, color := Color.b },
                  some { kind := Kind.p, color := Color.b },
                  some { kind := Kind.p, color := Color.b },
                  some { kind := Kind.p, color := Color.b },
                  some { kind := Kind.p, color := Color.b },
                  some { kind := Kind.p, color := Color.b },
                  none,
                  none],
                 [none, none, none, none, none, none, none, none],
                 [none, none, none, none, none, none, some { kind := Kind.p, color := Color.w }, none],
                 [some { kind := Kind.p, color := Color.w },
                  none,
                  none,
                  none,
                  none,
                  none,
                  none,
                  some { kind := Kind.p, color := Color.b }],
                 [none, none, none, none, none, none, none, none],
                 [none,
                  some { kind := Kind.p, color := Color.w },
                  some { kind := Kind.p, color := Color.w },
                  some { kind := Kind.p, color := Color.w },
                  some { kind := Kind.p, color := Color.w },
                  some { kind := Kind.p, color := Color.w },
                  some { kind := Kind.p, color := Color.w },
                  none],
                 [some { kind := Kind.r, color := Color.w },
                  some { kind := Kind.n, color := Color.w },
                  some { kind := Kind.b, color := Color.w },
                  some { kind := Kind.q, color := Color.w },
                  some { kind := Kind.k, color := Color.w },
                  some { kind := Kind.b, color := Color.w },
                  some { kind := Kind.n, color := Color.w },
                  some { kind := Kind.r, color := Color.w }]],
    kingMoved := { w := false, b := false },
    rookMoved := { w := { a := false, h := false }, b := { a := false, h := false } },
    enPassantTarget := none,
    turn := Color.b,
    gameOver := false,
    gameOverType := none,
    gameOverColor := none }

def c1s8 : GameState :=
  { positions := [[some { kind := Kind.r, color := Color.b },
                  some { kind := Kind.n, color := Color.b },
                  some { kind := Kind.b, color := Color.b },
                  some { kind := Kind.q, color := Color.b },
                  some { kind := Kind.k, color := Color.b },
                  some { kind := Kind.b, color := Color.b },
                  some { kind := Kind.n, color := Color.b },
                  some { kind := Kind.r, color := Color.b }],
                 [some { kind := Kind.p, color := Color.b },
                  some { kind := Kind.p, color := Color.b },
                  some { kind := Kind.p, color := Color.b },
                  some { kind := Kind.p, color := Color.b },
                  some { kind := Kind.p, color := Color.b },
                  some { kind := Kind.p, color := Color.b },
                  none,
                  none],
                 [none, none, none, none, none, none, none, none],
                 [none, none, none, none, none, none, some { kind := Kind.p, color := Color.w }, none],
                 [some { kind := Kind.p, color := Color.w }, none, none, none, none, none, none, none],
                 [none, none, none, none, none, none, none, some { kind := Kind.p, color := Color.b }],
                 [none,
                  some { kind := Kind.p, color := Color.w },
                  some { kind := Kind.p, color := Color.w },
                  some { kind := Kind.p, color := Color.w },
                  some { kind := Kind.p, color := Color.w },
                  some { kind := Kind.p, color := Color.w },
                  some { kind := Kind.p, color := Color.w },
                  none],
                 [some { kind := Kind.r, color := Color.w },
                  some { kind := Kind.n, color := Color.w },
                  some { kind := Kind.b, color := Color.w },
                  some { kind := Kind.q, color := Color.w },
                  some { kind := Kind.k, color := Color.w },
                  some { kind := Kind.b, color := Color.w },
                  some { kind := Kind.n, color := Color.w },
                  some { kind := Kind.r, color := Color.w }]],
    kingMoved := { w := false, b := false },
    rookMoved := { w := { a := false, h := false }, b := { a := false, h := false } },
    enPassantTarget := none,
    turn := Color.w,
    gameOver := false,
    gameOverType := none,
    gameOverColor := none }

def c1s9 : GameState :=
  { positions := [[some { kind := Kind.r, color := Color.b },
                  some { kind := Kind.n, color := Color.b },
                  some { kind := Kind.b, color := Color.b },
                  some { kind := Kind.q, color := Color.b },
                  some { kind := Kind.k, color := Color.b },
                  some { kind := Kind.b, color := Color.b },
                  some { kind := Kind.n, color := Color.b },
                  some { kind := Kind.r, color := Color.b }],
                 [some { kind := Kind.p, color := Color.b },
                  some { kind := Kind.p, color := Color.b },
                  some { kind := Kind.p, color := Color.b },
                  some { kind := Kind.p, color := Color.b },
                  some { kind := Kind.p, color := Color.b },
                  some { kind := Kind.p, color := Color.b },
                  none,
                  none],
                 [none, none, none, none, none, none, none, none],
                 [none, none, none, none, none, none, some { kind := Kind.p, color := Color.w }, none],
                 [some { kind := Kind.p, color := Color.w }, none, none, none, none, none, none, none],
                 [none,
                  some { kind := Kind.p, color := Color.w },
                  none,
                  none,
                  none,
                  none,
                  none,
                  some { kind := Kind.p, color := Color.b }],
                 [none,
                  none,
                  some { kind := Kind.p, color := Color.w },
                  some { kind := Kind.p, color := Color.w },
                  some { kind := Kind.p, color := Color.w },
                  some { kind := Kind.p, color := Color.w },
                  some { kind := Kind.p, color := Color.w },
                  none],
                 [some { kind := Kind.r, color := Color.w },
                  some { kind := Kind.n, color := Color.w },
                  some { kind := Kind.b, color := Color.w },
                  some { kind := Kind.q, color := Color.w },
                  some { kind := Kind.k, color := Color.w },
                  some { kind := Kind.b, color := Color.w },
                  some { kind := Kind.n, color := Color.w },
                  some { kind := Kind.r, color := Color.w }]],
    kingMoved := { w := false, b := false },
    rookMoved := { w := { a := false, h := false }, b := { a := false, h := false } },
    enPassantTarget := none,
    turn := Color.b,
    gameOver := false,
    gameOverType := none,
    gameOverColor := none }

def c1s10 : GameState :=
  { positions := [[some { kind := Kind.r, color := Color.b },
                  some { kind := Kind.n, color := Color.b },
                  some { kind := Kind.b, color := Color.b },
                  some { kind := Kind.q, color := Color.b },
                  some { kind := Kind.k, color := Color.b },
                  some { kind := Kind.b, color := Color.b },
                  some { kind := Kind.n, color := Color.b },
                  some { kind := Kind.r, color := Color.b }],
                 [some { kind := Kind.p, color := Color.b },
                  some { kind := Kind.p, color := Color.b },
                  some { kind := Kind.p, color := Color.b },
                  some { kind := Kind.p, color := Color.b },
                  some { kind := Kind.p, color := Color.b },
                  some { kind := Kind.p, color := Color.b },
                  none,
                  none],
                 [none, none, none, none, none, none, none, none],
                 [none, none, none, none, none, none, some { kind := Kind.p, color := Color.w }, none],
                 [some { kind := Kind.p, color := Color.w }, none, none, none, none, none, none, none],
                 [none, some { kind := Kind.p, color := Color.w }, none, none, none, none, none, none],
                 [none,
                  none,
                  some { kind := Kind.p, color := Color.w },
                  some { kind := Kind.p, color := Color.w },
                  some { kind := Kind.p, color := Color.w },
                  some { kind := Kind.p, color := Color.w },
                  some { kind := Kind.p, color := Color.w },
                  some { kind := Kind.p, color := Color.b }],
                 [some { kind := Kind.r, color := Color.w },
                  some { kind := Kind.n, color := Color.w },
                  some { kind := Kind.b, color := Color.w },
                  some { kind := Kind.q, color := Color.w },
                  some { kind := Kind.k, color := Color.w },
                  some { kind := Kind.b, color := Color.w },
                  some { kind := Kind.n, color := Color.w },
                  some { kind := Kind.r, color := Color.w }]],
    kingMoved := { w := false, b := false },
    rookMoved := { w := { a := false, h := false }, b := { a := false, h := false } },
    enPassantTarget := none,
    turn := Color.w,
    gameOver := false,
    gameOverType := none,
    gameOverColor := none }

def c1s11 : GameState :=
  { positions := [[some { kind := Kind.r, color := Color.b },
                  some { kind := Kind.n, color := Color.b },
                  some { kind := Kind.b, color := Color.b },
                  some { kind := Kind.q, color := Color.b },
                  some { kind := Kind.k, color := Color.b },
                  some { kind := Kind.b, color := Color.b },
                  some { kind := Kind.n, color := Color.b },
                  some { kind := Kind.r, color := Color.b }],
                 [some { kind := Kind.p, color := Color.b },
                  some { kind := Kind.p, color := Color.b },
                  some { kind := Kind.p, color := Color.b },
                  some { kind := Kind.p, color := Color.b },
                  some { kind := Kind.p, color := Color.b },
                  some { kind := Kind.p, color := Color.b },
                  none,
                  none],
                 [none, none, none, none, none, none, none, none],
                 [none, none, none, none, none, none, some { kind := Kind.p, color := Color.w }, none],
                 [some { kind := Kind.p, color := Color.w }, none, none, none, none, none, none, none],
                 [none,
                  some { kind := Kind.p, color := Color.w },
                  none,
                  none,
                  none,
                  some { kind := Kind.n, color := Color.w },
                  none,
                  none],
                 [none,
                  none,
                  some { kind := Kind.p, color := Color.w },
                  some { kind := Kind.p, color := Color.w },
                  some { kind := Kind.p, color := Color.w },
                  some { kind := Kind.p, color := Color.w },
                  some { kind := Kind.p, color := Color.w },
                  some { kind := Kind.p, color := Color.b }],
                 [some { kind := Kind.r, color := Color.w },
                  some { kind := Kind.n, color := Color.w },
                  some { kind := Kind.b, color := Color.w },
                  some { kind := Kind.q, color := Color.w },
                  some { kind := Kind.k, color := Color.w },
                  some { kind := Kind.b, color := Color.w },
                  none,
                  some { kind := Kind.r, color := Color.w }]],
    kingMoved := { w := false, b := false },
    rookMoved := { w := { a := false, h := false }, b := { a := false, h := false } },
    enPassantTarget := none,
    turn := Color.b,
    gameOver := false,
    gameOverType := none,
    gameOverColor := none }

def c1s12 : GameState :=
  { positions := [[some { kind := Kind.r, color := Color.b },
                  some { kind := Kind.n, color := Color.b },
                  some { kind := Kind.b, color := Color.b },
                  some { kind := Kind.q, color := Color.b },
                  some { kind := Kind.k, color := Color.b },
                  some { kind := Kind.b, color := Color.b },
                  some { kind := Kind.n, color := Color.b },
                  some { kind := Kind.r, color := Color.b }],
                 [none,
                  some { kind := Kind.p, color := Color.b },
                  some { kind := Kind.p, color := Color.b },
                  some { kind := Kind.p, color := Color.b },
                  some { kind := Kind.p, color := Color.b },
                  some { kind := Kind.p, color := Color.b },
                  none,
                  none],
                 [some { kind := Kind.p, color := Color.b }, none, none, none, none, none, none, none],
                 [none, none, none, none, none, none, some { kind := Kind.p, color := Color.w }, none],
                 [some { kind := Kind.p, color := Color.w }, none, none, none, none, none, none, none],
                 [none,
                  some { kind := Kind.p, color := Color.w },
                  none,
                  none,
                  none,
                  some { kind := Kind.n, color := Color.w },
                  none,
                  none],
                 [none,
                  none,
                  some { kind := Kind.p, color := Color.w },
                  some { kind := Kind.p, color := Color.w },
                  some { kind := Kind.p, color := Color.w },
                  some { kind := Kind.p, color := Color.w },
                  some { kind := Kind.p, color := Color.w },
                  some { kind := Kind.p, color := Color.b }],
                 [some { kind := Kind.r, color := Color.w },
                  some { kind := Kind.n, color := Color.w },
                  some { kind := Kind.b, color := Color.w },
                  some { kind := Kind.q, color := Color.w },
                  some { kind := Kind.k, color := Color.w },
                  some { kind := Kind.b, color := Color.w },
                  none,
                  some { kind := Kind.r, color := Color.w }]],
    kingMoved := { w := false, b := false },
    rookMoved := { w := { a := false, h := false }, b := { a := false, h := false } },
    enPassantTarget := none,
    turn := Color.w,
    gameOver := false,
    gameOverType := none,
    gameOverColor := none }

def c1s13 : GameState :=
  { positions := [[some { kind := Kind.r, color := Color.b },
                  some { kind := Kind.n, color := Color.b },
                  some { kind := Kind.b, color := Color.b },
                  some { kind := Kind.q, color := Color.b },
                  some { kind := Kind.k, color := Color.b },
                  some { kind := Kind.b, color := Color.b },
                  some { kind := Kind.n, color := Color.b },
                  some { kind := Kind.r, color := Color.b }],
                 [none,
                  some { kind := Kind.p, color := Color.b },
                  some { kind := Kind.p, color := Color.b },
                  some { kind := Kind.p, color := Color.b },
                  some { kind := Kind.p, color := Color.b },
                  some { kind := Kind.p, color := Color.b },
                  none,
                  none],
                 [some { kind := Kind.p, color := Color.b }, none, none, none, none, none, none, none],
                 [none, none, none, none, none, none, some { kind := Kind.p, color := Color.w }, none],
                 [some { kind := Kind.p, color := Color.w }, none, none, none, none, none, none, none],
                 [none,
                  some { kind := Kind.p, color := Color.w },
                  none,
                  none,
                  some { kind := Kind.p, color := Color.w },
                  some { kind := Kind.n, color := Color.w },
                  none,
                  none],
                 [none,
                  none,
                  some { kind := Kind.p, color := Color.w },
                  some { kind := Kind.p, color := Color.w },
                  none,
                  some { kind := Kind.p, color := Color.w },
                  some { kind := Kind.p, color := Color.w },
                  some { kind := Kind.p, color := Color.b }],
                 [some { kind := Kind.r, color := Color.w },
                  some { kind := Kind.n, color := Color.w },
                  some { kind := Kind.b, color := Color.w },
                  some { kind := Kind.q, color := Color.w },
                  some { kind := Kind.k, color := Color.w },
                  some { kind := Kind.b, color := Color.w },
                  none,
                  some { kind := Kind.r, color := Color.w }]],
    kingMoved := { w := false, b := false },
    rookMoved := { w := { a := false, h := false }, b := { a := false, h := false } },
    enPassantTarget := none,
    turn := Color.b,
    gameOver := false,
    gameOverType := none,
    gameOverColor := none }

def c1s14 : GameState :=
  { positions := [[some { kind := Kind.r, color := Color.b },
                  some { kind := Kind.n, color := Color.b },
                  some { kind := Kind.b, color := Color.b },
                  some { kind := Kind.q, color := Color.b },
                  some { kind := Kind.k, color := Color.b },
                  some { kind := Kind.b, color := Color.b },
                  some { kind := Kind.n, color := Color.b },
                  some { kind := Kind.r, color := Color.b }],
                 [none,
                  none,
                  some { kind := Kind.p, color := Color.b },
                  some { kind := Kind.p, color := Color.b },
                  some { kind := Kind.p, color := Color.b },
                  some { kind := Kind.p, color := Color.b },
                  none,
                  none],
                 [some { kind := Kind.p, color := Color.b },
                  some { kind := Kind.p, color := Color.b },
                  none,
                  none,
                  none,
                  none,
                  none,
                  none],
                 [none, none, none, none, none, none, some { kind := Kind.p, color := Color.w }, none],
                 [some { kind := Kind.p, color := Color.w }, none, none, none, none, none, none, none],
                 [none,
                  some { kind := Kind.p, color := Color.w },
                  none,
                  none,
                  some { kind := Kind.p, color := Color.w },
                  some { kind := Kind.n, color := Color.w },
                  none,
                  none],
                 [none,
                  none,
                  some { kind := Kind.p, color := Color.w },
                  some { kind := Kind.p, color := Color.w },
                  none,
                  some { kind := Kind.p, color := Color.w },
                  some { kind := Kind.p, color := Color.w },
                  some { kind := Kind.p, color := Color.b }],
                 [some { kind := Kind.r, color := Color.w },
                  some { kind := Kind.n, color := Color.w },
                  some { kind := Kind.b, color := Color.w },
                  some { kind := Kind.q, color := Color.w },
                  some { kind := Kind.k, color := Color.w },
                  some { kind := Kind.b, color := Color.w },
                  none,
                  some { kind := Kind.r, color := Color.w }]],
    kingMoved := { w := false, b := false },
    rookMoved := { w := { a := false, h := false }, b := { a := false, h := false } },
    enPassantTarget := none,
    turn := Color.w,
    gameOver := false,
    gameOverType := none,
    gameOverColor := none }

def c1s15 : GameState :=
  { positions := [[some { kind := Kind.r, color := Color.b },
                  some { kind := Kind.n, color := Color.b },
                  some { kind := Kind.b, color := Color.b },
                  some { kind := Kind.q, color := Color.b },
                  some { kind := Kind.k, color := Color.b },
                  some { kind := Kind.b, color := Color.b },
                  some { kind := Kind.n, color := Color.b },
                  some { kind := Kind.r, color := Color.b }],
                 [none,
                  none,
                  some { kind := Kind.p, color := Color.b },
                  some { kind := Kind.p, color := Color.b },
                  some { kind := Kind.p, color := Color.b },
                  some { kind := Kind.p, color := Color.b },
                  none,
                  none],
                 [some { kind := Kind.p, color := Color.b },
                  some { kind := Kind.p, color := Color.b },
                  none,
                  none,
                  none,
                  none,
                  none,
                  none],
                 [none, none, none, none, none, none, some { kind := Kind.p, color := Color.w }, none],
                 [some { kind := Kind.p, color := Color.w }, none, none, none, none, none, none, none],
                 [none,
                  some { kind := Kind.p, color := Color.w },
                  none,
                  none,
                  some { kind := Kind.p, color := Color.w },
                  some { kind := Kind.n, color := Color.w },
                  none,
                  none],
                 [none,
                  none,
                  some { kind := Kind.p, color := Color.w },
                  some { kind := Kind.p, color := Color.w },
                  some { kind := Kind.b, color := Color.w },
                  some { kind := Kind.p, color := Color.w },
                  some { kind := Kind.p, color := Color.w },
                  some { kind := Kind.p, color := Color.b }],
                 [some { kind := Kind.r, color := Color.w },
                  some { kind := Kind.n, color := Color.w },
                  some { kind := Kind.b, color := Color.w },
                  some { kind := Kind.q, color := Color.w },
                  some { kind := Kind.k, color := Color.w },
                  none,
                  none,
                  some { kind := Kind.r, color := Color.w }]],
    kingMoved := { w := false, b := false },
    rookMoved := { w := { a := false, h := false }, b := { a := false, h := false } },
    enPassantTarget := none,
    turn := Color.b,
    gameOver := false,
    gameOverType := none,
    gameOverColor := none }

def c1s16 : GameState :=
  { positions := [[some { kind := Kind.r, color := Color.b },
                  some { kind := Kind.n, color := Color.b },
                  some { kind := Kind.b, color := Color.b },
                  some { kind := Kind.q, color := Color.b },
                  some { kind := Kind.k, color := Color.b },
                  some { kind := Kind.b, color := Color.b },
                  some { kind := Kind.n, color := Color.b },
                  some { kind := Kind.r, color := Color.b }],
                 [none,
                  none,
                  none,
                  some { kind := Kind.p, color := Color.b },
                  some { kind := Kind.p, color := Color.b },
                  some { kind := Kind.p, color := Color.b },
                  none,
                  none],
                 [some { kind := Kind.p, color := Color.b },
                  some { kind := Kind.p, color := Color.b },
                  some { kind := Kind.p, color := Color.b },
                  none,
                  none,
                  none,
                  none,
                  none],
                 [none, none, none, none, none, none, some { kind := Kind.p, color := Color.w }, none],
                 [some { kind := Kind.p, color := Color.w }, none, none, none, none, none, none, none],
                 [none,
                  some { kind := Kind.p, color := Color.w },
                  none,
                  none,
                  some { kind := Kind.p, color := Color.w },
                  some { kind := Kind.n, color := Color.w },
                  none,
                  none],
                 [none,
                  none,
                  some { kind := Kind.p, color := Color.w },
                  some { kind := Kind.p, color := Color.w },
                  some { kind := Kind.b, color := Color.w },
                  some { kind := Kind.p, color := Color.w },
                  some { kind := Kind.p, color := Color.w },
                  some { kind := Kind.p, color := Color.b }],
                 [some { kind := Kind.r, color := Color.w },
                  some { kind := Kind.n, color := Color.w },
                  some { kind := Kind.b, color := Color.w },
                  some { kind := Kind.q, color := Color.w },
                  some { kind := Kind.k, color := Color.w },
                  none,
                  none,
                  some { kind := Kind.r, color := Color.w }]],
    kingMoved := { w := false, b := false },
    rookMoved := { w := { a := false, h := false }, b := { a := false, h := false } },
    enPassantTarget := none,
    turn := Color.w,
    gameOver := false,
    gameOverType := none,
    gameOverColor := none }

def c7s1 : GameState :=
  { positions := [[some { kind := Kind.r, color := Color.b },
                  some { kind := Kind.n, color := Color.b },
                  some { kind := Kind.b, color := Color.b },
                  some { kind := Kind.q, color := Color.b },
                  some { kind := Kind.k, color := Color.b },
                  some { kind := Kind.b, color := Color.b },
                  some { kind := Kind.n, color := Color.b },
                  some { kind := Kind.r, color := Color.b }],
                 [some { kind := Kind.p, color := Color.b },
                  some { kind := Kind.p, color := Color.b },
                  some { kind := Kind.p, color := Color.b },
                  some { kind := Kind.p, color := Color.b },
                  some { kind := Kind.p, color := Color.b },
                  some { kind := Kind.p, color := Color.b },
                  some { kind := Kind.p, color := Color.b },
                  some { kind := Kind.p, color := Color.b }],
                 [none, none, none, none, none, none, none, none],
                 [none, none, none, none, none, none, none, none],
                 [none, none, none, none, some { kind := Kind.p, color := Color.w }, none, none, none],
                 [none, none, none, none, none, none, none, none],
                 [some { kind := Kind.p, color := Color.w },
                  some { kind := Kind.p, color := Color.w },
                  some { kind := Kind.p, color := Color.w },
                  some { kind := Kind.p, color := Color.w },
                  none,
                  some { kind := Kind.p, color := Color.w },
                  some { kind := Kind.p, color := Color.w },
                  some { kind := Kind.p, color := Color.w }],
                 [some { kind := Kind.r, color := Color.w },
                  some { kind := Kind.n, color := Color.w },
                  some { kind := Kind.b, color := Color.w },
                  some { kind := Kind.q, color := Color.w },
                  some { kind := Kind.k, color := Color.w },
                  some { kind := Kind.b, color := Color.w },
                  some { kind := Kind.n, color := Color.w },
                  some { kind := Kind.r, color := Color.w }]],
    kingMoved := { w := false, b := false },
    rookMoved := { w := { a := false, h := false }, b := { a := false, h := false } },
    enPassantTarget := some { r := 5, f := 4 },
    turn := Color.b,
    gameOver := false,
    gameOverType := none,
    gameOverColor := none }

def c7s2 : GameState :=
  { positions := [[some { kind := Kind.r, color := Color.b },
                  some { kind := Kind.n, color := Color.b },
                  some { kind := Kind.b, color := Color.b },
                  some { kind := Kind.q, color := Color.b },
                  some { kind := Kind.k, color := Color.b },
                  some { kind := Kind.b, color := Color.b },
                  some { kind := Kind.n, color := Color.b },
                  some { kind := Kind.r, color := Color.b }],
                 [none,
                  some { kind := Kind.p, color := Color.b },
                  some { kind := Kind.p, color := Color.b },
                  some { kind := Kind.p, color := Color.b },
                  some { kind := Kind.p, color := Color.b },
                  some { kind := Kind.p, color := Color.b },
                  some { kind := Kind.p, color := Color.b },
                  some { kind := Kind.p, color := Color.b }],
                 [none, none, none, none, none, none, none, none],
                 [some { kind := Kind.p, color := Color.b }, none, none, none, none, none, none, none],
                 [none, none, none, none, some { kind := Kind.p, color := Color.w }, none, none, none],
                 [none, none, none, none, none, none, none, none],
                 [some { kind := Kind.p, color := Color.w },
                  some { kind := Kind.p, color := Color.w },
                  some { kind := Kind.p, color := Color.w },
                  some { kind := Kind.p, color := Color.w },
                  none,
                  some { kind := Kind.p, color := Color.w },
                  some { kind := Kind.p, color := Color.w },
                  some { kind := Kind.p, color := Color.w }],
                 [some { kind := Kind.r, color := Color.w },
                  some { kind := Kind.n, color := Color.w },
                  some { kind := Kind.b, color := Color.w },
                  some { kind := Kind.q, color := Color.w },
                  some { kind := Kind.k, color := Color.w },
                  some { kind := Kind.b, color := Color.w },
                  some { kind := Kind.n, color := Color.w },
                  some { kind := Kind.r, color := Color.w }]],
    kingMoved := { w := false, b := false },
    rookMoved := { w := { a := false, h := false }, b := { a := false, h := false } },
    enPassantTarget := some { r := 2, f := 0 },
    turn := Color.w,
    gameOver := false,
    gameOverType := none,
    gameOverColor := none }

def c7s3 : GameState :=
  { positions := [[some { kind := Kind.r, color := Color.b },
                  some { kind := Kind.n, color := Color.b },
                  some { kind := Kind.b, color := Color.b },
                  some { kind := Kind.q, color := Color.b },
                  some { kind := Kind.k, color := Color.b },
                  some { kind := Kind.b, color := Color.b },
                  some { kind := Kind.n, color := Color.b },
                  some { kind := Kind.r, color := Color.b }],
                 [none,
                  some { kind := Kind.p, color := Color.b },
                  some { kind := Kind.p, color := Color.b },
                  some { kind := Kind.p, color := Color.b },
                  some { kind := Kind.p, color := Color.b },
                  some { kind := Kind.p, color := Color.b },
                  some { kind := Kind.p, color := Color.b },
                  some { kind := Kind.p, color := Color.b }],
                 [none, none, none, none, none, none, none, none],
                 [some { kind := Kind.p, color := Color.b }, none, none, none, none, none, none, none],
                 [none,
                  none,
                  none,
                  none,
                  some { kind := Kind.p, color := Color.w },
                  some { kind := Kind.p, color := Color.w },
                  none,
                  none],
                 [none, none, none, none, none, none, none, none],
                 [some { kind := Kind.p, color := Color.w },
                  some { kind := Kind.p, color := Color.w },
                  some { kind := Kind.p, color := Color.w },
                  some { kind := Kind.p, color := Color.w },
                  none,
                  none,
                  some { kind := Kind.p, color := Color.w },
                  some { kind := Kind.p, color := Color.w }],
                 [some { kind := Kind.r, color := Color.w },
                  some { kind := Kind.n, color := Color.w },
                  some { kind := Kind.b, color := Color.w },
                  some { kind := Kind.q, color := Color.w },
                  some { kind := Kind.k, color := Color.w },
                  some { kind := Kind.b, color := Color.w },
                  some { kind := Kind.n, color := Color.w },
                  some { kind := Kind.r, color := Color.w }]],
    kingMoved := { w := false, b := false },
    rookMoved := { w := { a := false, h := false }, b := { a := false, h := false } },
    enPassantTarget := some { r := 5, f := 5 },
    turn := Color.b,
    gameOver := false,
    gameOverType := none,
    gameOverColor := none }

def c7s4 : GameState :=
  { positions := [[none,
                  some { kind := Kind.n, color := Color.b },
                  some { kind := Kind.b, color := Color.b },
                  some { kind := Kind.q, color := Color.b },
                  some { kind := Kind.k, color := Color.b },
                  some { kind := Kind.b, color := Color.b },
                  some { kind := Kind.n, color := Color.b },
                  some { kind := Kind.r, color := Color.b }],
                 [none,
                  some { kind := Kind.p, color := Color.b },
                  some { kind := Kind.p, color := Color.b },
                  some { kind := Kind.p, color := Color.b },
                  some { kind := Kind.p, color := Color.b },
                  some { kind := Kind.p, color := Color.b },
                  some { kind := Kind.p, color := Color.b },
                  some { kind := Kind.p, color := Color.b }],
                 [some { kind := Kind.r, color := Color.b }, none, none, none, none, none, none, none],
                 [some { kind := Kind.p, color := Color.b }, none, none, none, none, none, none, none],
                 [none,
                  none,
                  none,
                  none,
                  some { kind := Kind.p, color := Color.w },
                  some { kind := Kind.p, color := Color.w },
                  none,
                  none],
                 [none, none, none, none, none, none, none, none],
                 [some { kind := Kind.p, color := Color.w },
                  some { kind := Kind.p, color := Color.w },
                  some { kind := Kind.p, color := Color.w },
                  some { kind := Kind.p, color := Color.w },
                  none,
                  none,
                  some { kind := Kind.p, color := Color.w },
                  some { kind := Kind.p, color := Color.w }],
                 [some { kind := Kind.r, color := Color.w },
                  some { kind := Kind.n, color := Color.w },
                  some { kind := Kind.b, color := Color.w },
                  some { kind := Kind.q, color := Color.w },
                  some { kind := Kind.k, color := Color.w },
                  some { kind := Kind.b, color := Color.w },
                  some { kind := Kind.n, color := Color.w },
                  some { kind := Kind.r, color := Color.w }]],
    kingMoved := { w := false, b := false },
    rookMoved := { w := { a := false, h := false }, b := { a := true, h := false } },
    enPassantTarget := none,
    turn := Color.w,
    gameOver := false,
    gameOverType := none,
    gameOverColor := none }

def c7s5 : GameState :=
  { positions := [[none,
                  some { kind := Kind.n, color := Color.b },
                  some { kind := Kind.b, color := Color.b },
                  some { kind := Kind.q, color := Color.b },
                  some { kind := Kind.k, color := Color.b },
                  some { kind := Kind.b, color := Color.b },
                  some { kind := Kind.n, color := Color.b },
                  some { kind := Kind.r, color := Color.b }],
                 [none,
                  some { kind := Kind.p, color := Color.b },
                  some { kind := Kind.p, color := Color.b },
                  some { kind := Kind.p, color := Color.b },
                  some { kind := Kind.p, color := Color.b },
                  some { kind := Kind.p, color := Color.b },
                  some { kind := Kind.p, color := Color.b },
                  some { kind := Kind.p, color := Color.b }],
                 [some { kind := Kind.r, color := Color.b }, none, none, none, none, none, none, none],
                 [some { kind := Kind.p, color := Color.b },
                  none,
                  none,
                  none,
                  none,
                  some { kind := Kind.p, color := Color.w },
                  none,
                  none],
                 [none, none, none, none, some { kind := Kind.p, color := Color.w }, none, none, none],
                 [none, none, none, none, none, none, none, none],
                 [some { kind := Kind.p, color := Color.w },
                  some { kind := Kind.p, color := Color.w },
                  some { kind := Kind.p, color := Color.w },
                  some { kind := Kind.p, color := Color.w },
                  none,
                  none,
                  some { kind := Kind.p, color := Color.w },
                  some { kind := Kind.p, color := Color.w }],
                 [some { kind := Kind.r, color := Color.w },
                  some { kind := Kind.n, color := Color.w },
                  some { kind := Kind.b, color := Color.w },
                  some { kind := Kind.q, color := Color.w },
                  some { kind := Kind.k, color := Color.w },
                  some { kind := Kind.b, color := Color.w },
                  some { kind := Kind.n, color := Color.w },
                  some { kind := Kind.r, color := Color.w }]],
    kingMoved := { w := false, b := false },
    rookMoved := { w := { a := false, h := false }, b := { a := true, h := false } },
    enPassantTarget := none,
    turn := Color.b,
    gameOver := false,
    gameOverType := none,
    gameOverColor := none }

def c7s6 : GameState :=
  { positions := [[none,
                  some { kind := Kind.n, color := Color.b },
                  some { kind := Kind.b, color := Color.b },
                  some { kind := Kind.q, color := Color.b },
                  some { kind := Kind.k, color := Color.b },
                  some { kind := Kind.b, color := Color.b },
                  some { kind := Kind.n, color := Color.b },
                  some { kind := Kind.r, color := Color.b }],
                 [none,
                  some { kind := Kind.p, color := Color.b },
                  some { kind := Kind.p, color := Color.b },
                  some { kind := Kind.p, color := Color.b },
                  some { kind := Kind.p, color := Color.b },
                  some { kind := Kind.p, color := Color.b },
                  some { kind := Kind.p, color := Color.b },
                  some { kind := Kind.p, color := Color.b }],
                 [none, none, none, none, some { kind := Kind.r, color := Color.b }, none, none, none],
                 [some { kind := Kind.p, color := Color.b },
                  none,
                  none,
                  none,
                  none,
                  some { kind := Kind.p, color := Color.w },
                  none,
                  none],
                 [none, none, none, none, some { kind := Kind.p, color := Color.w }, none, none, none],
                 [none, none, none, none, none, none, none, none],
                 [some { kind := Kind.p, color := Color.w },
                  some { kind := Kind.p, color := Color.w },
                  some { kind := Kind.p, color := Color.w },
                  some { kind := Kind.p, color := Color.w },
                  none,
                  none,
                  some { kind := Kind.p, color := Color.w },
                  some { kind := Kind.p, color := Color.w }],
                 [some { kind := Kind.r, color := Color.w },
                  some { kind := Kind.n, color := Color.w },
                  some { kind := Kind.b, color := Color.w },
                  some { kind := Kind.q, color := Color.w },
                  some { kind := Kind.k, color := Color.w },
                  some { kind := Kind.b, color := Color.w },
                  some { kind := Kind.n, color := Color.w },
                  some { kind := Kind.r, color := Color.w }]],
    kingMoved := { w := false, b := false },
    rookMoved := { w := { a := false, h := false }, b := { a := true, h := false } },
    enPassantTarget := none,
    turn := Color.w,
    gameOver := false,
    gameOverType := none,
    gameOverColor := none }

def c7s7 : GameState :=
  { positions := [[none,
                  some { kind := Kind.n, color := Color.b },
                  some { kind := Kind.b, color := Color.b },
                  some { kind := Kind.q, color := Color.b },
                  some { kind := Kind.k, color := Color.b },
                  some { kind := Kind.b, color := Color.b },
                  some { kind := Kind.n, color := Color.b },
                  some { kind := Kind.r, color := Color.b }],
                 [none,
                  some { kind := Kind.p, color := Color.b },
                  some { kind := Kind.p, color := Color.b },
                  some { kind := Kind.p, color := Color.b },
                  some { kind := Kind.p, color := Color.b },
                  some { kind := Kind.p, color := Color.b },
                  some { kind := Kind.p, color := Color.b },
                  some { kind := Kind.p, color := Color.b }],
                 [none, none, none, none, some { kind := Kind.r, color := Color.b }, none, none, none],
                 [some { kind := Kind.p, color := Color.b },
                  none,
                  none,
                  none,
                  none,
                  some { kind := Kind.p, color := Color.w },
                  none,
                  none],
                 [none, none, none, none, some { kind := Kind.p, color := Color.w }, none, none, none],
                 [none, none, none, none, none, none, none, none],
                 [some { kind := Kind.p, color := Color.w },
                  some { kind := Kind.p, color := Color.w },
                  some { kind := Kind.p, color := Color.w },
                  some { kind := Kind.p, color := Color.w },
                  some { kind := Kind.k, color := Color.w },
                  none,
                  some { kind := Kind.p, color := Color.w },
                  some { kind := Kind.p, color := Color.w }],
                 [some { kind := Kind.r, color := Color.w },
                  some { kind := Kind.n, color := Color.w },
                  some { kind := Kind.b, color := Color.w },
                  some { kind := Kind.q, color := Color.w },
                  none,
                  some { kind := Kind.b, color := Color.w },
                  some { kind := Kind.n, color := Color.w },
                  some { kind := Kind.r, color := Color.w }]],
    kingMoved := { w := true, b := false },
    rookMoved := { w := { a := false, h := false }, b := { a := true, h := false } },
    enPassantTarget := none,
    turn := Color.b,
    gameOver := false,
    gameOverType := none,
    gameOverColor := none }

def c7s8 : GameState :=
  { positions := [[none,
                  some { kind := Kind.n, color := Color.b },
                  some { kind := Kind.b, color := Color.b },
                  some { kind := Kind.q, color := Color.b },
                  some { kind := Kind.k, color := Color.b },
                  some { kind := Kind.b, color := Color.b },
                  some { kind := Kind.n, color := Color.b },
                  some { kind := Kind.r, color := Color.b }],
                 [none,
                  some { kind := Kind.p, color := Color.b },
                  some { kind := Kind.p, color := Color.b },
                  some { kind := Kind.p, color := Color.b },
                  some { kind := Kind.p, color := Color.b },
                  some { kind := Kind.p, color := Color.b },
                  some { kind := Kind.p, color := Color.b },
                  some { kind := Kind.p, color := Color.b }],
                 [none, none, none, none, none, none, none, none],
                 [some { kind := Kind.p, color := Color.b },
                  none,
                  none,
                  none,
                  some { kind := Kind.r, color := Color.b },
                  some { kind := Kind.p, color := Color.w },
                  none,
                  none],
                 [none, none, none, none, some { kind := Kind.p, color := Color.w }, none, none, none],
                 [none, none, none, none, none, none, none, none],
                 [some { kind := Kind.p, color := Color.w },
                  some { kind := Kind.p, color := Color.w },
                  some { kind := Kind.p, color := Color.w },
                  some { kind := Kind.p, color := Color.w },
                  some { kind := Kind.k, color := Color.w },
                  none,
                  some { kind := Kind.p, color := Color.w },
                  some { kind := Kind.p, color := Color.w }],
                 [some { kind := Kind.r, color := Color.w },
                  some { kind := Kind.n, color := Color.w },
                  some { kind := Kind.b, color := Color.w },
                  some { kind := Kind.q, color := Color.w },
                  none,
                  some { kind := Kind.b, color := Color.w },
                  some { kind := Kind.n, color := Color.w },
                  some { kind := Kind.r, color := Color.w }]],
    kingMoved := { w := true, b := false },
    rookMoved := { w := { a := false, h := false }, b := { a := true, h := false } },
    enPassantTarget := none,
    turn := Color.w,
    gameOver := false,
    gameOverType := none,
    gameOverColor := none }

def c7s9 : GameState :=
  { positions := [[none,
                  some { kind := Kind.n, color := Color.b },
                  some { kind := Kind.b, color := Color.b },
                  some { kind := Kind.q, color := Color.b },
                  some { kind := Kind.k, color := Color.b },
                  some { kind := Kind.b, color := Color.b },
                  some { kind := Kind.n, color := Color.b },
                  some { kind := Kind.r, color := Color.b }],
                 [none,
                  some { kind := Kind.p, color := Color.b },
                  some { kind := Kind.p, color := Color.b },
                  some { kind := Kind.p, color := Color.b },
                  some { kind := Kind.p, color := Color.b },
                  some { kind := Kind.p, color := Color.b },
                  some { kind := Kind.p, color := Color.b },
                  some { kind := Kind.p, color := Color.b }],
                 [none, none, none, none, none, none, none, none],
                 [some { kind := Kind.p, color := Color.b },
                  none,
                  none,
                  none,
                  some { kind := Kind.r, color := Color.b },
                  some { kind := Kind.p, color := Color.w },
                  none,
                  none],
                 [none, none, none, none, some { kind := Kind.p, color := Color.w }, none, none, none],
                 [none, none, none, none, none, some { kind := Kind.k, color := Color.w }, none, none],
                 [some { kind := Kind.p, color := Color.w },
                  some { kind := Kind.p, color := Color.w },
                  some { kind := Kind.p, color := Color.w },
                  some { kind := Kind.p, color := Color.w },
                  none,
                  none,
                  some { kind := Kind.p, color := Color.w },
                  some { kind := Kind.p, color := Color.w }],
                 [some { kind := Kind.r, color := Color.w },
                  some { kind := Kind.n, color := Color.w },
                  some { kind := Kind.b, color := Color.w },
                  some { kind := Kind.q, color := Color.w },
                  none,
                  some { kind := Kind.b, color := Color.w },
                  some { kind := Kind.n, color := Color.w },
                  some { kind := Kind.r, color := Color.w }]],
    kingMoved := { w := true, b := false },
    rookMoved := { w := { a := false, h := false }, b := { a := true, h := false } },
    enPassantTarget := none,
    turn := Color.b,
    gameOver := false,
    gameOverType := none,
    gameOverColor := none }

def c7s10 : GameState :=
  { positions := [[none,
                  some { kind := Kind.n, color := Color.b },
                  some { kind := Kind.b, color := Color.b },
                  some { kind := Kind.q, color := Color.b },
                  some { kind := Kind.k, color := Color.b },
                  some { kind := Kind.b, color := Color.b },
                  some { kind := Kind.n, color := Color.b },
                  some { kind := Kind.r, color := Color.b }],
                 [none,
                  some { kind := Kind.p, color := Color.b },
                  some { kind := Kind.p, color := Color.b },
                  some { kind := Kind.p, color := Color.b },
                  some { kind := Kind.p, color := Color.b },
                  some { kind := Kind.p, color := Color.b },
                  some { kind := Kind.p, color := Color.b },
                  none],
                 [none, none, none, none, none, none, none, some { kind := Kind.p, color := Color.b }],
                 [some { kind := Kind.p, color := Color.b },
                  none,
                  none,
                  none,
                  some { kind := Kind.r, color := Color.b },
                  some { kind := Kind.p, color := Color.w },
                  none,
                  none],
                 [none, none, none, none, some { kind := Kind.p, color := Color.w }, none, none, none],
                 [none, none, none, none, none, some { kind := Kind.k, color := Color.w }, none, none],
                 [some { kind := Kind.p, color := Color.w },
                  some { kind := Kind.p, color := Color.w },
                  some { kind := Kind.p, color := Color.w },
                  some { kind := Kind.p, color := Color.w },
                  none,
                  none,
                  some { kind := Kind.p, color := Color.w },
                  some { kind := Kind.p, color := Color.w }],
                 [some { kind := Kind.r, color := Color.w },
                  some { kind := Kind.n, color := Color.w },
                  some { kind := Kind.b, color := Color.w },
                  some { kind := Kind.q, color := Color.w },
                  none,
                  some { kind := Kind.b, color := Color.w },
                  some { kind := Kind.n, color := Color.w },
                  some { kind := Kind.r, color := Color.w }]],
    kingMoved := { w := true, b := false },
    rookMoved := { w := { a := false, h := false }, b := { a := true, h := false } },
    enPassantTarget := none,
    turn := Color.w,
    gameOver := false,
    gameOverType := none,
    gameOverColor := none }

def c7s11 : GameState :=
  { positions := [[none,
                  some { kind := Kind.n, color := Color.b },
                  some { kind := Kind.b, color := Color.b },
                  some { kind := Kind.q, color := Color.b },
                  some { kind := Kind.k, color := Color.b },
                  some { kind := Kind.b, color := Color.b },
                  some { kind := Kind.n, color := Color.b },
                  some { kind := Kind.r, color := Color.b }],
                 [none,
                  some { kind := Kind.p, color := Color.b },
                  some { kind := Kind.p, color := Color.b },
                  some { kind := Kind.p, color := Color.b },
                  some { kind := Kind.p, color := Color.b },
                  some { kind := Kind.p, color := Color.b },
                  some { kind := Kind.p, color := Color.b },
                  none],
                 [none, none, none, none, none, none, none, some { kind := Kind.p, color := Color.b }],
                 [some { kind := Kind.p, color := Color.b },
                  none,
                  none,
                  none,
                  some { kind := Kind.r, color := Color.b },
                  some { kind := Kind.p, color := Color.w },
                  none,
                  none],
                 [none,
                  none,
                  none,
                  none,
                  some { kind := Kind.p, color := Color.w },
                  none,
                  some { kind := Kind.k, color := Color.w },
                  none],
                 [none, none, none, none, none, none, none, none],
                 [some { kind := Kind.p, color := Color.w },
                  some { kind := Kind.p, color := Color.w },
                  some { kind := Kind.p, color := Color.w },
                  some { kind := Kind.p, color := Color.w },
                  none,
                  none,
                  some { kind := Kind.p, color := Color.w },
                  some { kind := Kind.p, color := Color.w }],
                 [some { kind := Kind.r, color := Color.w },
                  some { kind := Kind.n, color := Color.w },
                  some { kind := Kind.b, color := Color.w },
                  some { kind := Kind.q, color := Color.w },
                  none,
                  some { kind := Kind.b, color := Color.w },
                  some { kind := Kind.n, color := Color.w },
                  some { kind := Kind.r, color := Color.w }]],
    kingMoved := { w := true, b := false },
    rookMoved := { w := { a := false, h := false }, b := { a := true, h := false } },
    enPassantTarget := none,
    turn := Color.b,
    gameOver := false,
    gameOverType := none,
    gameOverColor := none }

def c7s12 : GameState :=
  { positions := [[none,
                  none,
                  some { kind := Kind.b, color := Color.b },
                  some { kind := Kind.q, color := Color.b },
                  some { kind := Kind.k, color := Color.b },
                  some { kind := Kind.b, color := Color.b },
                  some { kind := Kind.n, color := Color.b },
                  some { kind := Kind.r, color := Color.b }],
                 [none,
                  some { kind := Kind.p, color := Color.b },
                  some { kind := Kind.p, color := Color.b },
                  some { kind := Kind.p, color := Color.b },
                  some { kind := Kind.p, color := Color.b },
                  some { kind := Kind.p, color := Color.b },
                  some { kind := Kind.p, color := Color.b },
                  none],
                 [none,
                  none,
                  some { kind := Kind.n, color := Color.b },
                  none,
                  none,
                  none,
                  none,
                  some { kind := Kind.p, color := Color.b }],
                 [some { kind := Kind.p, color := Color.b },
                  none,
                  none,
                  none,
                  some { kind := Kind.r, color := Color.b },
                  some { kind := Kind.p, color := Color.w },
                  none,
                  none],
                 [none,
                  none,
                  none,
                  none,
                  some { kind := Kind.p, color := Color.w },
                  none,
                  some { kind := Kind.k, color := Color.w },
                  none],
                 [none, none, none, none, none, none, none, none],
                 [some { kind := Kind.p, color := Color.w },
                  some { kind := Kind.p, color := Color.w },
                  some { kind := Kind.p, color := Color.w },
                  some { kind := Kind.p, color := Color.w },
                  none,
                  none,
                  some { kind := Kind.p, color := Color.w },
                  some { kind := Kind.p, color := Color.w }],
                 [some { kind := Kind.r, color := Color.w },
                  some { kind := Kind.n, color := Color.w },
                  some { kind := Kind.b, color := Color.w },
                  some { kind := Kind.q, color := Color.w },
                  none,
                  some { kind := Kind.b, color := Color.w },
                  some { kind := Kind.n, color := Color.w },
                  some { kind := Kind.r, color := Color.w }]],
    kingMoved := { w := true, b := false },
    rookMoved := { w := { a := false, h := false }, b := { a := true, h := false } },
    enPassantTarget := none,
    turn := Color.w,
    gameOver := false,
    gameOverType := none,
    gameOverColor := none }

def c7s13 : GameState :=
  { positions := [[none,
                  none,
                  some { kind := Kind.b, color := Color.b },
                  some { kind := Kind.q, color := Color.b },
                  some { kind := Kind.k, color := Color.b },
                  some { kind := Kind.b, color := Color.b },
                  some { kind := Kind.n, color := Color.b },
                  some { kind := Kind.r, color := Color.b }],
                 [none,
                  some { kind := Kind.p, color := Color.b },
                  some { kind := Kind.p, color := Color.b },
                  some { kind := Kind.p, color := Color.b },
                  some { kind := Kind.p, color := Color.b },
                  some { kind := Kind.p, color := Color.b },
                  some { kind := Kind.p, color := Color.b },
                  none],
                 [none,
                  none,
                  some { kind := Kind.n, color := Color.b },
                  none,
                  none,
                  none,
                  none,
                  some { kind := Kind.p, color := Color.b }],
                 [some { kind := Kind.p, color := Color.b },
                  none,
                  none,
                  none,
                  some { kind := Kind.r, color := Color.b },
                  some { kind := Kind.p, color := Color.w },
                  none,
                  some { kind := Kind.k, color := Color.w }],
                 [none, none, none, none, some { kind := Kind.p, color := Color.w }, none, none, none],
                 [none, none, none, none, none, none, none, none],
                 [some { kind := Kind.p, color := Color.w },
                  some { kind := Kind.p, color := Color.w },
                  some { kind := Kind.p, color := Color.w },
                  some { kind := Kind.p, color := Color.w },
                  none,
                  none,
                  some { kind := Kind.p, color := Color.w },
                  some { kind := Kind.p, color := Color.w }],
                 [some { kind := Kind.r, color := Color.w },
                  some { kind := Kind.n, color := Color.w },
                  some { kind := Kind.b, color := Color.w },
                  some { kind := Kind.q, color := Color.w },
                  none,
                  some { kind := Kind.b, color := Color.w },
                  some { kind := Kind.n, color := Color.w },
                  some { kind := Kind.r, color := Color.w }]],
    kingMoved := { w := true, b := false },
    rookMoved := { w := { a := false, h := false }, b := { a := true, h := false } },
    enPassantTarget := none,
    turn := Color.b,
    gameOver := false,
    gameOverType := none,
    gameOverColor := none }

def c7s14 : GameState :=
  { positions := [[none,
                  none,
                  some { kind := Kind.b, color := Color.b },
                  some { kind := Kind.q, color := Color.b },
                  some { kind := Kind.k, color := Color.b },
                  some { kind := Kind.b, color := Color.b },
                  some { kind := Kind.n, color := Color.b },
                  some { kind := Kind.r, color := Color.b }],
                 [none,
                  some { kind := Kind.p, color := Color.b },
                  some { kind := Kind.p, color := Color.b },
                  some { kind := Kind.p, color := Color.b },
                  some { kind := Kind.p, color := Color.b },
                  some { kind := Kind.p, color := Color.b },
                  none,
                  none],
                 [none,
                  none,
                  some { kind := Kind.n, color := Color.b },
                  none,
                  none,
                  none,
                  none,
                  some { kind := Kind.p, color := Color.b }],
                 [some { kind := Kind.p, color := Color.b },
                  none,
                  none,
                  none,
                  some { kind := Kind.r, color := Color.b },
                  some { kind := Kind.p, color := Color.w },
                  some { kind := Kind.p, color := Color.b },
                  some { kind := Kind.k, color := Color.w }],
                 [none, none, none, none, some { kind := Kind.p, color := Color.w }, none, none, none],
                 [none, none, none, none, none, none, none, none],
                 [some { kind := Kind.p, color := Color.w },
                  some { kind := Kind.p, color := Color.w },
                  some { kind := Kind.p, color := Color.w },
                  some { kind := Kind.p, color := Color.w },
                  none,
                  none,
                  some { kind := Kind.p, color := Color.w },
                  some { kind := Kind.p, color := Color.w }],
                 [some { kind := Kind.r, color := Color.w },
                  some { kind := Kind.n, color := Color.w },
                  some { kind := Kind.b, color := Color.w },
                  some { kind := Kind.q, color := Color.w },
                  none,
                  some { kind := Kind.b, color := Color.w },
                  some { kind := Kind.n, color := Color.w },
                  some { kind := Kind.r, color := Color.w }]],
    kingMoved := { w := true, b := false },
    rookMoved := { w := { a := false, h := false }, b := { a := true, h := false } },
    enPassantTarget := some { r := 2, f := 6 },
    turn := Color.w,
    gameOver := false,
    gameOverType := none,
    gameOverColor := none }

def c7s15 : GameState :=
  { positions := [[none,
                  none,
                  some { kind := Kind.b, color := Color.b },
                  some { kind := Kind.q, color := Color.b },
                  some { kind := Kind.k, color := Color.b },
                  some { kind := Kind.b, color := Color.b },
                  some { kind := Kind.n, color := Color.b },
                  some { kind := Kind.r, color := Color.b }],
                 [none,
                  some { kind := Kind.p, color := Color.b },
                  some { kind := Kind.p, color := Color.b },
                  some { kind := Kind.p, color := Color.b },
                  some { kind := Kind.p, color := Color.b },
                  some { kind := Kind.p, color := Color.b },
                  none,
                  none],
                 [none,
                  none,
                  some { kind := Kind.n, color := Color.b },
                  none,
                  none,
                  none,
                  some { kind := Kind.p, color := Color.w },
                  some { kind := Kind.p, color := Color.b }],
                 [some { kind := Kind.p, color := Color.b },
                  none,
                  none,
                  none,
                  some { kind := Kind.r, color := Color.b },
                  none,
                  none,
                  some { kind := Kind.k, color := Color.w }],
                 [none, none, none, none, some { kind := Kind.p, color := Color.w }, none, none, none],
                 [none, none, none, none, none, none, none, none],
                 [some { kind := Kind.p, color := Color.w },
                  some { kind := Kind.p, color := Color.w },
                  some { kind := Kind.p, color := Color.w },
                  some { kind := Kind.p, color := Color.w },
                  none,
                  none,
                  some { kind := Kind.p, color := Color.w },
                  some { kind := Kind.p, color := Color.w }],
                 [some { kind := Kind.r, color := Color.w },
                  some { kind := Kind.n, color := Color.w },
                  some { kind := Kind.b, color := Color.w },
                  some { kind := Kind.q, color := Color.w },
                  none,
                  some { kind := Kind.b, color := Color.w },
                  some { kind := Kind.n, color := Color.w },
                  some { kind := Kind.r, color := Color.w }]],
    kingMoved := { w := true, b := false },
    rookMoved := { w := { a := false, h := false }, b := { a := true, h := false } },
    enPassantTarget := none,
    turn := Color.b,
    gameOver := false,
    gameOverType := none,
    gameOverColor := none }

def c7s16 : GameState :=
  { positions := [[none,
                  none,
                  some { kind := Kind.b, color := Color.b },
                  some { kind := Kind.q, color := Color.b },
                  some { kind := Kind.k, color := Color.b },
                  some { kind := Kind.b, color := Color.b },
                  some { kind := Kind.n, color := Color.b },
                  some { kind := Kind.r, color := Color.b }],
                 [none,
                  some { kind := Kind.p, color := Color.b },
                  some { kind := Kind.p, color := Color.b },
                  some { kind := Kind.p, color := Color.b },
                  some { kind := Kind.p, color := Color.b },
                  some { kind := Kind.p, color := Color.b },
                  none,
                  none],
                 [none,
                  none,
                  some { kind := Kind.n, color := Color.b },
                  none,
                  none,
                  none,
                  some { kind := Kind.p, color := Color.w },
                  some { kind := Kind.p, color := Color.b }],
                 [some { kind := Kind.p, color := Color.b },
                  none,
                  none,
                  none,
                  none,
                  none,
                  none,
                  some { kind := Kind.r, color := Color.b }],
                 [none, none, none, none, some { kind := Kind.p, color := Color.w }, none, none, none],
                 [none, none, none, none, none, none, none, none],
                 [some { kind := Kind.p, color := Color.w },
                  some { kind := Kind.p, color := Color.w },
                  some { kind := Kind.p, color := Color.w },
                  some { kind := Kind.p, color := Color.w },
                  none,
                  none,
                  some { kind := Kind.p, color := Color.w },
                  some { kind := Kind.p, color := Color.w }],
                 [some { kind := Kind.r, color := Color.w },
                  some { kind := Kind.n, color := Color.w },
                  some { kind := Kind.b, color := Color.w },
                  some { kind := Kind.q, color := Color.w },
                  none,
                  some { kind := Kind.b, color := Color.w },
                  some { kind := Kind.n, color := Color.w },
                  some { kind := Kind.r, color := Color.w }]],
    kingMoved := { w := true, b := false },
    rookMoved := { w := { a := false, h := false }, b := { a := true, h := false } },
    enPassantTarget := none,
    turn := Color.w,
    gameOver := false,
    gameOverType := none,
    gameOverColor := none }


/-! Concrete positions used as witnesses and counterexamples. -/


def sC1w : GameState :=
  { positions :=
      [[none, none, none, none, some ⟨Kind.k, Color.b⟩, none, none, none],
       [none, none, none, none, none, none, none, none],
       [none, none, none, none, none, none, none, none],
       [none, none, none, none, none, none, none, none],
       [none, none, none, none, none, none, none, none],
       [none, none, none, none, none, none, none, none],
       [none, none, none, none, none, none, none, none],
       [none, none, none, none, some ⟨Kind.k, Color.w⟩, none, none, some ⟨Kind.r, Color.w⟩]],
    kingMoved := ⟨false, false⟩,
    rookMoved := ⟨⟨false, false⟩, ⟨false, false⟩⟩,
    enPassantTarget := none, turn := Color.w, gameOver := false,
    gameOverType := none, gameOverColor := none }

def sC3 : GameState :=
  { positions :=
      [[some ⟨Kind.k, Color.b⟩, none, none, none, some ⟨Kind.r, Color.b⟩, none, none, none],
       [none, none, none, none, none, none, none, none],
       [none, none, none, none, none, none, none, none],
       [none, none, none, none, none, none, none, none],
       [none, none, none, none, none, none, none, none],
       [none, none, none, none, none, none, none, none],
       [none, none, none, none, some ⟨Kind.r, Color.w⟩, none, none, none],
       [none, none, none, none, some ⟨Kind.k, Color.w⟩, none, none, none]],
    kingMoved := ⟨false, false⟩,
    rookMoved := ⟨⟨false, false⟩, ⟨false, false⟩⟩,
    enPassantTarget := none, turn := Color.w, gameOver := false,
    gameOverType := none, gameOverColor := none }

def sOver : GameState :=
  { positions := initialPositions,
    kingMoved := ⟨false, false⟩,
    rookMoved := ⟨⟨false, false⟩, ⟨false, false⟩⟩,
    enPassantTarget := none, turn := Color.w, gameOver := true,
    gameOverType := some GOType.checkmate, gameOverColor := some ⟨7, 4⟩ }

def sC10 : GameState :=
  { positions :=
      [[none, none, none, none, some ⟨Kind.k, Color.b⟩, none, none, none],
       [none, none, none, none, none, none, none, none],
       [none, none, none, none, none, none, none, none],
       [none, none, none, none, none, none, none, none],
       [none, none, none, none, none, none, none, none],
       [none, none, none, none, none, none, none, none],
       [none, none, none, none, none, none, none, none],
       [none, none, none, none, some ⟨Kind.k, Color.w⟩, none, none, none]],
    kingMoved := ⟨false, false⟩,
    rookMoved := ⟨⟨false, false⟩, ⟨false, false⟩⟩,
    enPassantTarget := none, turn := Color.w, gameOver := false,
    gameOverType := none, gameOverColor := none }

def s0C4 : GameState :=
  { positions :=
      [[none, none, none, some ⟨Kind.k, Color.b⟩, none, none, none, none],
       [none, none, none, none, none, none, none, none],
       [none, none, none, none, none, none, none, none],
       [none, none, none, none, none, none, none, none],
       [none, none, none, some ⟨Kind.p, Color.b⟩, none, none, none, none],
       [none, none, none, none, none, none, none, none],
       [none, none, none, none, some ⟨Kind.p, Color.w⟩, none, none, none],
       [none, none, none, some ⟨Kind.r, Color.w⟩, none, none, some ⟨Kind.k, Color.w⟩, none]],
    kingMoved := ⟨false, true⟩,
    rookMoved := ⟨⟨false, false⟩, ⟨false, false⟩⟩,
    enPassantTarget := none, turn := Color.w, gameOver := false,
    gameOverType := none, gameOverColor := none }

def s1C4w : GameState :=
  { positions :=
      [[none, none, none, none, some ⟨Kind.k, Color.b⟩, none, none, none],
       [none, none, none, none, none, none, none, none],
       [none, none, none, none, none, none, none, none],
       [none, none, none, none, none, none, none, none],
       [none, none, none, some ⟨Kind.p, Color.b⟩, some ⟨Kind.p, Color.w⟩, none, none, none],
       [none, none, none, none, none, none, none, none],
       [none, none, none, none, none, none, none, none],
       [none, none, none, none, some ⟨Kind.k, Color.w⟩, none, none, none]],
    kingMoved := ⟨false, false⟩,
    rookMoved := ⟨⟨false, false⟩, ⟨false, false⟩⟩,
    enPassantTarget := some ⟨5, 4⟩, turn := Color.b, gameOver := false,
    gameOverType := none, gameOverColor := none }


set_option maxRecDepth 100000


theorem mem_allSquares (q : Sq) :
    q ∈ allSquares ↔ 0 ≤ q.r ∧ q.r < 8 ∧ 0 ≤ q.f ∧ q.f < 8 := by
  unfold allSquares
  simp only [List.mem_flatMap, List.mem_map, List.mem_range]
  constructor
  · rintro ⟨r, hr, f, hf, rfl⟩
    dsimp only
    exact ⟨Int.ofNat_nonneg r, Int.ofNat_lt.mpr hr, Int.ofNat_nonneg f,
      Int.ofNat_lt.mpr hf⟩
  · rintro ⟨h1, h2, h3, h4⟩
    refine ⟨q.r.toNat, by omega, q.f.toNat, by omega, ?_⟩
    cases q with
    | mk r f =>
      dsimp only at h1 h3 ⊢
      rw [Sq.mk.injEq]
      exact ⟨Int.toNat_of_nonneg h1, Int.toNat_of_nonneg h3⟩

theorem getCell_setCell_self (g : Grid) (r f : Int) (v : Cell)
    (hr0 : 0 ≤ r) (hr8 : r < 8) (hf0 : 0 ≤ f) (hf8 : f < 8) (hwf : GridWF g) :
    getCell (setCell g r f v) r f = v := by
  obtain ⟨i, rfl⟩ : ∃ i : Nat, r = Int.ofNat i :=
    ⟨r.toNat, (Int.toNat_of_nonneg hr0).symm⟩
  obtain ⟨j, rfl⟩ : ∃ j : Nat, f = Int.ofNat j :=
    ⟨f.toNat, (Int.toNat_of_nonneg hf0).symm⟩
  have hi8 : i < 8 := Int.ofNat_lt.mp hr8
  have hj8 : j < 8 := Int.ofNat_lt.mp hf8
  have hi : i < g.length := by rw [hwf.1]; exact hi8
  have hj : j < (g.getD i []).length := by rw [hwf.2 i hi8]; exact hj8
  change ((g.set i ((g.getD i []).set j v)).getD i []).getD j none = v
  simp only [List.getD_eq_getElem?_getD]
  rw [List.getD_eq_getElem?_getD] at hj
  rw [List.getElem?_set_eq_of_lt _ hi, Option.getD_some,
    List.getElem?_set_eq_of_lt _ hj, Option.getD_some]

theorem getCell_setCell_ne (g : Grid) (r f r2 f2 : Int) (v : Cell)
    (hne : r2 ≠ r ∨ f2 ≠ f) :
    getCell (setCell g r f v) r2 f2 = getCell g r2 f2 := by
  unfold getCell setCell
  cases r with
  | negSucc i => cases f2 <;> cases r2 <;> rfl
  | ofNat i =>
    cases f with
    | negSucc j => cases f2 <;> cases r2 <;> rfl
    | ofNat j =>
      cases r2 with
      | negSucc i2 => rfl
      | ofNat i2 =>
        cases f2 with
        | negSucc j2 => rfl
        | ofNat j2 =>
          change ((g.set i ((g.getD i []).set j v)).getD i2 []).getD j2 none =
            (g.getD i2 []).getD j2 none
          simp only [List.getD_eq_getElem?_getD]
          by_cases hi : i2 = i
          · subst hi
            have hj : j2 ≠ j := by
              rcases hne with h | h
              · exact absurd rfl h
              · intro hc; exact h (by rw [hc])
            by_cases hilen : i2 < g.length
            · rw [List.getElem?_set_eq_of_lt _ hilen, Option.getD_some,
                List.getElem?_set_ne (Ne.symm hj)]
            · have h1 : (g.set i2 ((g[i2]?.getD []).set j v))[i2]? = none := by
                rw [List.getElem?_eq_none_iff, List.length_set]; omega
              have h2 : g[i2]? = none := by
                rw [List.getElem?_eq_none_iff]; omega
              rw [h1, h2]
          · rw [List.getElem?_set_ne (fun hc => hi hc.symm)]

theorem GridWF_setCell (g : Grid) (r f : Int) (v : Cell) (hwf : GridWF g) :
    GridWF (setCell g r f v) := by
  unfold setCell
  cases r with
  | negSucc i => exact hwf
  | ofNat i =>
    cases f with
    | negSucc j => exact hwf
    | ofNat j =>
      refine ⟨?_, ?_⟩
      · show (g.set i ((g.getD i []).set j v)).length = 8
        rw [List.length_set]; exact hwf.1
      · intro i2 hi2
        show ((g.set i ((g.getD i []).set j v)).getD i2 []).length = 8
        rw [List.getD_eq_getElem?_getD]
        by_cases hi : i2 = i
        · subst hi
          by_cases hilen : i2 < g.length
          · rw [List.getElem?_set_eq_of_lt _ hilen, Option.getD_some, List.length_set]
            exact hwf.2 i2 hi2
          · exact absurd (hwf.1 ▸ hi2) hilen
        · rw [List.getElem?_set_ne (fun hc => hi hc.symm), ← List.getD_eq_getElem?_getD]
          exact hwf.2 i2 hi2

theorem isInCheck_eq_isAttacked (s : GameState) (c : Color) (r f : Int)
    (hk : findKing s.positions c = ⟨r, f⟩) :
    isInCheck s c = isAttacked s r f c.flip := by
  unfold isInCheck isAttacked
  rw [hk]

theorem isInCheck_update (s : GameState) (go : Bool) (ty : Option GOType)
    (cs : Option Sq) (c : Color) :
    isInCheck { s with gameOver := go, gameOverType := ty, gameOverColor := cs } c =
      isInCheck s c := rfl

theorem getLegal_update (s : GameState) (go : Bool) (ty : Option GOType)
    (cs : Option Sq) (fr : Sq) (t : Piece) (ic : Bool) :
    getLegal { s with gameOver := go, gameOverType := ty, gameOverColor := cs } fr t ic =
      getLegal s fr t ic := rfl

theorem HasLegalMove_update (s : GameState) (go : Bool) (ty : Option GOType)
    (cs : Option Sq) (c : Color) :
    HasLegalMove { s with gameOver := go, gameOverType := ty, gameOverColor := cs } c ↔
      HasLegalMove s c := Iff.rfl

theorem hasAnyMove_iff (s : GameState) :
    hasAnyMove s = true ↔ HasLegalMove s s.turn := by
  unfold hasAnyMove HasLegalMove
  simp only [List.any_eq_true, List.mem_filter, List.mem_filterMap,
    decide_eq_true_eq]
  constructor
  · rintro ⟨⟨q, p⟩, ⟨⟨q2, hq2, hmatch⟩, hcol⟩, hlen⟩
    rcases hcell : getCell s.positions q2.r q2.f with _ | p2
    · rw [hcell] at hmatch; exact absurd hmatch (by simp)
    · rw [hcell] at hmatch
      simp only [Option.some.injEq, Prod.mk.injEq] at hmatch
      obtain ⟨rfl, rfl⟩ := hmatch
      have hb := (mem_allSquares q2).mp hq2
      exact ⟨q2, p2, hb.1, hb.2.1, hb.2.2.1, hb.2.2.2, hcell, hcol,
        List.ne_nil_of_length_pos hlen⟩
  · rintro ⟨q, p, h1, h2, h3, h4, hcell, hcol, hne⟩
    refine ⟨⟨q, p⟩, ⟨⟨q, (mem_allSquares q).mpr ⟨h1, h2, h3, h4⟩, by rw [hcell]⟩,
      hcol⟩, List.length_pos_of_ne_nil hne⟩

theorem updateStatus_turn (m : GameState) : (updateStatus m).turn = m.turn := by
  unfold updateStatus
  split
  · rfl
  · split <;> rfl

theorem updateStatus_positions (m : GameState) :
    (updateStatus m).positions = m.positions := by
  unfold updateStatus
  split
  · rfl
  · split <;> rfl

theorem updateStatus_enPassantTarget (m : GameState) :
    (updateStatus m).enPassantTarget = m.enPassantTarget := by
  unfold updateStatus
  split
  · rfl
  · split <;> rfl

theorem updateStatus_kingMoved (m : GameState) :
    (updateStatus m).kingMoved = m.kingMoved := by
  unfold updateStatus
  split
  · rfl
  · split <;> rfl

theorem updateStatus_rookMoved (m : GameState) :
    (updateStatus m).rookMoved = m.rookMoved := by
  unfold updateStatus
  split
  · rfl
  · split <;> rfl

theorem isInCheck_updateStatus (m : GameState) (c : Color) :
    isInCheck (updateStatus m) c = isInCheck m c := by
  unfold updateStatus
  split
  · rfl
  · split <;> rfl

theorem HasLegalMove_updateStatus (m : GameState) (c : Color) :
    HasLegalMove (updateStatus m) c ↔ HasLegalMove m c := by
  unfold updateStatus
  split
  · exact Iff.rfl
  · split <;> exact Iff.rfl

theorem getLegal_false_eq (s : GameState) (fr : Sq) (t : Piece) :
    getLegal s fr t false =
      (pseudoMoves s.positions s.enPassantTarget fr t ++
        (if t.kind = Kind.k then castleMoves s fr t else [])).filter fun dst =>
        !(isInCheck { s with positions := moveCopy s.positions fr dst } t.color) := rfl

theorem getLegal_false_safe (s : GameState) (fr : Sq) (t : Piece) (dst : Sq)
    (h : dst ∈ getLegal s fr t false) :
    isInCheck { s with positions := moveCopy s.positions fr dst } t.color = false := by
  rw [getLegal_false_eq, List.mem_filter] at h
  simpa using h.2

theorem checkFilterLoop_spec (fr : Sq) (c : Color) (l : List Sq) (st : GameState) :
    (checkFilterLoop fr c l st).2 = st ∧
    (checkFilterLoop fr c l st).1 = l.filter fun dst =>
      !(isInCheck { st with positions := moveCopy st.positions fr dst } c) := by
  induction l generalizing st with
  | nil => exact ⟨rfl, rfl⟩
  | cons a l ih =>
    have hst2 : ({ { st with positions := moveCopy st.positions fr a } with
        positions := st.positions } : GameState) = st := rfl
    constructor
    · show (checkFilterLoop fr c l st).2 = st
      exact (ih st).1
    · show (if !(isInCheck { st with positions := moveCopy st.positions fr a } c) then
          a :: (checkFilterLoop fr c l st).1 else (checkFilterLoop fr c l st).1) = _
      rw [List.filter_cons, (ih st).2]

theorem movePiece_enPassantTarget (s : GameState) (fr dst : Sq) :
    (movePiece s fr dst).enPassantTarget =
      if cellIsKind (getCell s.positions fr.r fr.f) Kind.p &&
          decide ((dst.r - fr.r).natAbs = 2) then
        some ⟨(fr.r + dst.r) / 2, fr.f⟩
      else none := by
  unfold movePiece
  rw [updateStatus_enPassantTarget]
  rfl

theorem pawn_ep_capture_mem (s : GameState) (fr tgt : Sq) (c : Color)
    (hep : s.enPassantTarget = some tgt)
    (hr : tgt.r = fr.r + pawnDir c)
    (hf : tgt.f = fr.f - 1 ∨ tgt.f = fr.f + 1)
    (hin : inB tgt.r tgt.f = true)
    (hsafe : isInCheck { s with positions := moveCopy s.positions fr tgt } c = false) :
    tgt ∈ getLegal s fr ⟨Kind.p, c⟩ false := by
  rw [getLegal_false_eq, List.mem_filter]
  constructor
  · rw [List.mem_append]
    left
    show tgt ∈ pseudoMoves s.positions s.enPassantTarget fr ⟨Kind.p, c⟩
    unfold pseudoMoves
    simp only [List.mem_append, List.mem_flatMap]
    right
    refine ⟨tgt.f - fr.f, ?_, ?_⟩
    · rcases hf with h | h <;> rw [h] <;> simp
    · have htgt : (⟨fr.r + pawnDir c, fr.f + (tgt.f - fr.f)⟩ : Sq) = tgt := by
        cases tgt with
        | mk a b => rw [Sq.mk.injEq]; constructor <;> simp_all
      rw [htgt, hep]
      simp only [Option.some.injEq, decide_eq_true_eq]
      rw [if_pos]
      · exact List.mem_singleton.mpr rfl
      · have h1 : fr.r + pawnDir c = tgt.r := hr.symm
        have h2 : fr.f + (tgt.f - fr.f) = tgt.f := by omega
        rw [h1, h2, hin]
        simp
  · simp [hsafe]

theorem movePiece_ep_removes (s : GameState) (fr dst : Sq) (c : Color)
    (hwf : GridWF s.positions)
    (hcell : getCell s.positions fr.r fr.f = some ⟨Kind.p, c⟩)
    (hep : s.enPassantTarget = some dst)
    (hner : dst.r ≠ fr.r) (hnef : dst.f ≠ fr.f)
    (hfr0 : 0 ≤ fr.r) (hfr8 : fr.r < 8) (hdf0 : 0 ≤ dst.f) (hdf8 : dst.f < 8) :
    getCell (movePiece s fr dst).positions fr.r dst.f = none := by
  unfold movePiece
  rw [updateStatus_positions]
  unfold applyEffects
  dsimp only
  rw [hcell, hep]
  simp only [cellIsKind, decide_eq_true_eq, Bool.and_eq_true, decide_eq_true_iff,
    and_self, if_true, show (Kind.p = Kind.k) = False by simp, false_and, if_false]
  have hpromo : ∀ (g : Grid) (v : Cell) (P : Prop) (inst : Decidable P),
      getCell (if P then setCell g dst.r dst.f v else g) fr.r dst.f =
        getCell g fr.r dst.f := by
    intro g v P inst
    split
    · exact getCell_setCell_ne _ _ _ _ _ _ (Or.inl (Ne.symm hner))
    · rfl
  rw [hpromo, hpromo,
    getCell_setCell_ne _ _ _ _ _ _ (Or.inr hnef),
    getCell_setCell_ne _ _ _ _ _ _ (Or.inl (Ne.symm hner)),
    getCell_setCell_self _ _ _ _ hfr0 hfr8 hdf0 hdf8 hwf]

theorem g1_not_mem_king_adj (g : Grid) (ep : Option Sq) :
    (⟨7, 6⟩ : Sq) ∉ pseudoMoves g ep ⟨7, 4⟩ ⟨Kind.k, Color.w⟩ := by
  unfold pseudoMoves
  dsimp only
  intro h
  simp only [List.mem_flatMap] at h
  obtain ⟨dr, hdr, df, hdf, hx⟩ := h
  split at hx
  · simp only [List.mem_singleton, Sq.mk.injEq] at hx
    simp only [List.mem_cons, List.mem_singleton, List.not_mem_nil] at hdf
    rcases hdf with rfl | rfl | rfl | hdf
    · omega
    · omega
    · omega
    · exact hdf
  · exact absurd hx (List.not_mem_nil _)

theorem mem_castle_ks (s : GameState) :
    ((⟨7, 6⟩ : Sq) ∈ castleMoves s ⟨7, 4⟩ ⟨Kind.k, Color.w⟩) ↔
      (s.kingMoved.w = false ∧ isInCheck s Color.w = false ∧
       (s.rookMoved.get Color.w).h = false ∧
       getCell s.positions 7 5 = none ∧ getCell s.positions 7 6 = none ∧
       isAttacked s 7 5 Color.b = false ∧ isAttacked s 7 6 Color.b = false) := by
  unfold castleMoves
  dsimp only
  simp only [List.mem_append, List.mem_ite_nil_right, List.mem_singleton,
    Bool.and_eq_true, Bool.not_eq_true', decide_eq_true_eq, Sq.mk.injEq, isEmp, inB]
  constructor
  · rintro ⟨⟨hkm, hchk⟩, h | h⟩
    · obtain ⟨⟨⟨⟨⟨⟨hrh, _⟩, he1⟩, he2⟩, ha1⟩, ha2⟩, _⟩ := h
      exact ⟨hkm, hchk, hrh, he1, he2, ha1, ha2⟩
    · obtain ⟨_, _, hbad⟩ := h
      omega
  · rintro ⟨hkm, hchk, hrh, he1, he2, ha1, ha2⟩
    exact ⟨⟨hkm, hchk⟩, Or.inl ⟨⟨⟨⟨⟨⟨hrh, by decide⟩, he1⟩, he2⟩, ha1⟩, ha2⟩, by simp⟩⟩


/-- Chain one verified move application onto a reachability proof,
    rewriting the successor to its literal value. -/
theorem reach_next (s s2 : GameState) (fr dst : Sq) (p : Piece)
    (h : Reachable s) (hgo : s.gameOver = false)
    (hc : getCell s.positions fr.r fr.f = some p) (hcol : p.color = s.turn)
    (hm : dst ∈ getLegal s fr p false) (he : movePiece s fr dst = s2) :
    Reachable s2 :=
  he ▸ Reachable.step s fr dst p h hgo hc hcol hm

set_option maxRecDepth 100000


theorem c1_game_reachable : Reachable c1s16 := by
  have h1 : Reachable c1s1 :=
    reach_next initialState c1s1 ⟨6, 7⟩ ⟨4, 7⟩ ⟨Kind.p, Color.w⟩ Reachable.init
      (by decide) (by decide) (by decide) (by decide) (by decide)
  have h2 : Reachable c1s2 :=
    reach_next c1s1 c1s2 ⟨1, 6⟩ ⟨3, 6⟩ ⟨Kind.p, Color.b⟩ h1
      (by decide) (by decide) (by decide) (by decide) (by decide)
  have h3 : Reachable c1s3 :=
    reach_next c1s2 c1s3 ⟨4, 7⟩ ⟨3, 6⟩ ⟨Kind.p, Color.w⟩ h2
      (by decide) (by decide) (by decide) (by decide) (by decide)
  have h4 : Reachable c1s4 :=
    reach_next c1s3 c1s4 ⟨1, 7⟩ ⟨3, 7⟩ ⟨Kind.p, Color.b⟩ h3
      (by decide) (by decide) (by decide) (by decide) (by decide)
  have h5 : Reachable c1s5 :=
    reach_next c1s4 c1s5 ⟨6, 0⟩ ⟨5, 0⟩ ⟨Kind.p, Color.w⟩ h4
      (by decide) (by decide) (by decide) (by decide) (by decide)
  have h6 : Reachable c1s6 :=
    reach_next c1s5 c1s6 ⟨3, 7⟩ ⟨4, 7⟩ ⟨Kind.p, Color.b⟩ h5
      (by decide) (by decide) (by decide) (by decide) (by decide)
  have h7 : Reachable c1s7 :=
    reach_next c1s6 c1s7 ⟨5, 0⟩ ⟨4, 0⟩ ⟨Kind.p, Color.w⟩ h6
      (by decide) (by decide) (by decide) (by decide) (by decide)
  have h8 : Reachable c1s8 :=
    reach_next c1s7 c1s8 ⟨4, 7⟩ ⟨5, 7⟩ ⟨Kind.p, Color.b⟩ h7
      (by decide) (by decide) (by decide) (by decide) (by decide)
  have h9 : Reachable c1s9 :=
    reach_next c1s8 c1s9 ⟨6, 1⟩ ⟨5, 1⟩ ⟨Kind.p, Color.w⟩ h8
      (by decide) (by decide) (by decide) (by decide) (by decide)
  have h10 : Reachable c1s10 :=
    reach_next c1s9 c1s10 ⟨5, 7⟩ ⟨6, 7⟩ ⟨Kind.p, Color.b⟩ h9
      (by decide) (by decide) (by decide) (by decide) (by decide)
  have h11 : Reachable c1s11 :=
    reach_next c1s10 c1s11 ⟨7, 6⟩ ⟨5, 5⟩ ⟨Kind.n, Color.w⟩ h10
      (by decide) (by decide) (by decide) (by decide) (by decide)
  have h12 : Reachable c1s12 :=
    reach_next c1s11 c1s12 ⟨1, 0⟩ ⟨2, 0⟩ ⟨Kind.p, Color.b⟩ h11
      (by decide) (by decide) (by decide) (by decide) (by decide)
  have h13 : Reachable c1s13 :=
    reach_next c1s12 c1s13 ⟨6, 4⟩ ⟨5, 4⟩ ⟨Kind.p, Color.w⟩ h12
      (by decide) (by decide) (by decide) (by decide) (by decide)
  have h14 : Reachable c1s14 :=
    reach_next c1s13 c1s14 ⟨1, 1⟩ ⟨2, 1⟩ ⟨Kind.p, Color.b⟩ h13
      (by decide) (by decide) (by decide) (by decide) (by decide)
  have h15 : Reachable c1s15 :=
    reach_next c1s14 c1s15 ⟨7, 5⟩ ⟨6, 4⟩ ⟨Kind.b, Color.w⟩ h14
      (by decide) (by decide) (by decide) (by decide) (by decide)
  have h16 : Reachable c1s16 :=
    reach_next c1s15 c1s16 ⟨1, 2⟩ ⟨2, 2⟩ ⟨Kind.p, Color.b⟩ h15
      (by decide) (by decide) (by decide) (by decide) (by decide)
  exact h16

theorem c7_game_reachable : Reachable c7s16 := by
  have h1 : Reachable c7s1 :=
    reach_next initialState c7s1 ⟨6, 4⟩ ⟨4, 4⟩ ⟨Kind.p, Color.w⟩ Reachable.init
      (by decide) (by decide) (by decide) (by decide) (by decide)
  have h2 : Reachable c7s2 :=
    reach_next c7s1 c7s2 ⟨1, 0⟩ ⟨3, 0⟩ ⟨Kind.p, Color.b⟩ h1
      (by decide) (by decide) (by decide) (by decide) (by decide)
  have h3 : Reachable c7s3 :=
    reach_next c7s2 c7s3 ⟨6, 5⟩ ⟨4, 5⟩ ⟨Kind.p, Color.w⟩ h2
      (by decide) (by decide) (by decide) (by decide) (by decide)
  have h4 : Reachable c7s4 :=
    reach_next c7s3 c7s4 ⟨0, 0⟩ ⟨2, 0⟩ ⟨Kind.r, Color.b⟩ h3
      (by decide) (by decide) (by decide) (by decide) (by decide)
  have h5 : Reachable c7s5 :=
    reach_next c7s4 c7s5 ⟨4, 5⟩ ⟨3, 5⟩ ⟨Kind.p, Color.w⟩ h4
      (by decide) (by decide) (by decide) (by decide) (by decide)
  have h6 : Reachable c7s6 :=
    reach_next c7s5 c7s6 ⟨2, 0⟩ ⟨2, 4⟩ ⟨Kind.r, Color.b⟩ h5
      (by decide) (by decide) (by decide) (by decide) (by decide)
  have h7 : Reachable c7s7 :=
    reach_next c7s6 c7s7 ⟨7, 4⟩ ⟨6, 4⟩ ⟨Kind.k, Color.w⟩ h6
      (by decide) (by decide) (by decide) (by decide) (by decide)
  have h8 : Reachable c7s8 :=
    reach_next c7s7 c7s8 ⟨2, 4⟩ ⟨3, 4⟩ ⟨Kind.r, Color.b⟩ h7
      (by decide) (by decide) (by decide) (by decide) (by decide)
  have h9 : Reachable c7s9 :=
    reach_next c7s8 c7s9 ⟨6, 4⟩ ⟨5, 5⟩ ⟨Kind.k, Color.w⟩ h8
      (by decide) (by decide) (by decide) (by decide) (by decide)
  have h10 : Reachable c7s10 :=
    reach_next c7s9 c7s10 ⟨1, 7⟩ ⟨2, 7⟩ ⟨Kind.p, Color.b⟩ h9
      (by decide) (by decide) (by decide) (by decide) (by decide)
  have h11 : Reachable c7s11 :=
    reach_next c7s10 c7s11 ⟨5, 5⟩ ⟨4, 6⟩ ⟨Kind.k, Color.w⟩ h10
      (by decide) (by decide) (by decide) (by decide) (by decide)
  have h12 : Reachable c7s12 :=
    reach_next c7s11 c7s12 ⟨0, 1⟩ ⟨2, 2⟩ ⟨Kind.n, Color.b⟩ h11
      (by decide) (by decide) (by decide) (by decide) (by decide)
  have h13 : Reachable c7s13 :=
    reach_next c7s12 c7s13 ⟨4, 6⟩ ⟨3, 7⟩ ⟨Kind.k, Color.w⟩ h12
      (by decide) (by decide) (by decide) (by decide) (by decide)
  have h14 : Reachable c7s14 :=
    reach_next c7s13 c7s14 ⟨1, 6⟩ ⟨3, 6⟩ ⟨Kind.p, Color.b⟩ h13
      (by decide) (by decide) (by decide) (by decide) (by decide)
  have h15 : Reachable c7s15 :=
    reach_next c7s14 c7s15 ⟨3, 5⟩ ⟨2, 6⟩ ⟨Kind.p, Color.w⟩ h14
      (by decide) (by decide) (by decide) (by decide) (by decide)
  have h16 : Reachable c7s16 :=
    reach_next c7s15 c7s16 ⟨3, 4⟩ ⟨3, 7⟩ ⟨Kind.r, Color.b⟩ h15
      (by decide) (by decide) (by decide) (by decide) (by decide)
  exact h16
/-- C1 (corrected).  For a state with white to move and the white king found
    on e1, the kingside castling destination g1 is in the filtered legal
    moves of the king if and only if the white king has never moved, the
    white h-file rook has never moved, f1 and g1 are empty, none of e1, f1,
    g1 is attacked by black, and additionally (the amendment) the king, once
    relocated from e1 to g1 on a copy of the grid, is not in check there.
    The last condition is not implied by the others, because a black pawn
    attacks g1 only once the king stands on it (see the counterexample). -/

theorem c1_kingside_castling_gate (s : GameState)
    (_hturn : s.turn = Color.w)
    (hkpos : getCell s.positions 7 4 = some ⟨Kind.k, Color.w⟩)
    (hfind : findKing s.positions Color.w = ⟨7, 4⟩) :
    ((⟨7, 6⟩ : Sq) ∈ getLegal s ⟨7, 4⟩ ⟨Kind.k, Color.w⟩ false) ↔
      (s.kingMoved.w = false ∧
       (s.rookMoved.get Color.w).h = false ∧
       getCell s.positions 7 5 = none ∧
       getCell s.positions 7 6 = none ∧
       isAttacked s 7 4 Color.b = false ∧
       isAttacked s 7 5 Color.b = false ∧
       isAttacked s 7 6 Color.b = false ∧
       isInCheck
         { s with
           positions :=
             setCell (setCell s.positions 7 6 (some ⟨Kind.k, Color.w⟩)) 7 4 none }
         Color.w = false) := by
  have hchk_att : isInCheck s Color.w = isAttacked s 7 4 Color.b :=
    isInCheck_eq_isAttacked s Color.w 7 4 hfind
  have hcopy : moveCopy s.positions ⟨7, 4⟩ ⟨7, 6⟩ =
      setCell (setCell s.positions 7 6 (some ⟨Kind.k, Color.w⟩)) 7 4 none := by
    unfold moveCopy
    dsimp only
    rw [hkpos]
  rw [getLegal_false_eq]
  constructor
  · intro h
    rw [List.mem_filter] at h
    obtain ⟨hmem, hpred⟩ := h
    rw [hcopy] at hpred
    simp only [Bool.not_eq_true', decide_eq_true_eq] at hpred
    rw [List.mem_append] at hmem
    rcases hmem with hp | hc
    · exact absurd hp (g1_not_mem_king_adj _ _)
    · rw [if_pos rfl] at hc
      obtain ⟨hkm, hchk, hrh, he1, he2, ha1, ha2⟩ := (mem_castle_ks s).mp hc
      rw [hchk_att] at hchk
      exact ⟨hkm, hrh, he1, he2, hchk, ha1, ha2, hpred⟩
  · rintro ⟨hkm, hrh, he1, he2, ha0, ha1, ha2, hsafe⟩
    rw [List.mem_filter]
    constructor
    · rw [List.mem_append]
      right
      rw [if_pos rfl]
      exact (mem_castle_ks s).mpr ⟨hkm, by rw [hchk_att]; exact ha0, hrh, he1, he2, ha1, ha2⟩
    · rw [hcopy]
      simp [hsafe]


/-- C1 witness: a position in which every condition of the gate holds and
    castling is indeed produced. -/

theorem c1_kingside_castling_gate_witness :
    (⟨7, 6⟩ : Sq) ∈ getLegal sC1w ⟨7, 4⟩ ⟨Kind.k, Color.w⟩ false :=
  (c1_kingside_castling_gate sC1w rfl (by decide) (by decide)).mpr
    ⟨by decide, by decide, by decide, by decide, by decide, by decide, by decide,
     by decide⟩


/-- C1 counterexample to the claim as stated: a reachable position (after
    1. h4 g5 2. hxg5 h5 3. a3 h4 4. a4 h3 5. b3 h2 6. Nf3 a6 7. e3 b6
    8. Be2 c6) where white is to move, the king stands unmoved on e1, the
    h-file rook is unmoved, f1 and g1 are empty and none of e1, f1, g1 is
    attacked by black, yet g1 is absent from the filtered move list: the
    black pawn on h2 attacks g1 only in the hypothetical position with the
    king already there, so the king-safety filter removes the move. -/
theorem c1_kingside_castling_gate_counterexample :
    Reachable c1s16 ∧ c1s16.turn = Color.w ∧
    getCell c1s16.positions 7 4 = some ⟨Kind.k, Color.w⟩ ∧
    c1s16.kingMoved.w = false ∧ (c1s16.rookMoved.get Color.w).h = false ∧
    getCell c1s16.positions 7 5 = none ∧ getCell c1s16.positions 7 6 = none ∧
    isAttacked c1s16 7 4 Color.b = false ∧ isAttacked c1s16 7 5 Color.b = false ∧
    isAttacked c1s16 7 6 Color.b = false ∧
    (⟨7, 6⟩ : Sq) ∉ getLegal c1s16 ⟨7, 4⟩ ⟨Kind.k, Color.w⟩ false :=
  ⟨c1_game_reachable, by decide, by decide, by decide, by decide, by decide,
   by decide, by decide, by decide, by decide, by decide⟩


/-- C2 (confirmed).  After any movePiece from a state where the game is not
    over, the side to move is flipped; if the new mover is in check and has
    no piece with a legal move the status becomes checkmate recorded for the
    new mover (with the square of its king), if it is not in check and has
    no legal move the status becomes stalemate, and otherwise the game stays
    in progress. -/

theorem c2_terminal_status (s : GameState) (fr dst : Sq) (hgo : s.gameOver = false) :
    (movePiece s fr dst).turn = s.turn.flip ∧
    (isInCheck (movePiece s fr dst) (movePiece s fr dst).turn = true ∧
        ¬HasLegalMove (movePiece s fr dst) (movePiece s fr dst).turn →
      (movePiece s fr dst).gameOver = true ∧
      (movePiece s fr dst).gameOverType = some GOType.checkmate ∧
      (movePiece s fr dst).gameOverColor =
        some (findKing (movePiece s fr dst).positions (movePiece s fr dst).turn)) ∧
    (isInCheck (movePiece s fr dst) (movePiece s fr dst).turn = false ∧
        ¬HasLegalMove (movePiece s fr dst) (movePiece s fr dst).turn →
      (movePiece s fr dst).gameOver = true ∧
      (movePiece s fr dst).gameOverType = some GOType.stalemate ∧
      (movePiece s fr dst).gameOverColor =
        some (findKing (movePiece s fr dst).positions (movePiece s fr dst).turn)) ∧
    (HasLegalMove (movePiece s fr dst) (movePiece s fr dst).turn →
      (movePiece s fr dst).gameOver = false) := by
  unfold movePiece
  generalize hM : applyEffects s fr dst = m
  have hmt : m.turn = s.turn.flip := by rw [← hM]; rfl
  have hmgo : m.gameOver = false := by rw [← hM]; exact hgo
  cases h1 : isInCheck m m.turn <;> cases h2 : hasAnyMove m
  case false.false =>
    have e : updateStatus m =
        { m with gameOver := true, gameOverType := some GOType.stalemate,
                 gameOverColor := some (findKing m.positions m.turn) } := by
      unfold updateStatus
      rw [h1, h2]
      simp
    rw [e]
    dsimp only
    rw [isInCheck_update, HasLegalMove_update]
    refine ⟨hmt, fun h => absurd h.1 (by rw [h1]; simp), fun _ => ⟨rfl, rfl, rfl⟩,
      fun h => ?_⟩
    have := (hasAnyMove_iff m).mpr h
    rw [h2] at this
    cases this
  case false.true =>
    have e : updateStatus m = m := by
      unfold updateStatus
      rw [h1, h2]
      simp
    rw [e]
    have hmoves : HasLegalMove m m.turn := (hasAnyMove_iff m).mp h2
    exact ⟨hmt, fun h => absurd hmoves h.2, fun h => absurd hmoves h.2,
      fun _ => hmgo⟩
  case true.false =>
    have e : updateStatus m =
        { m with gameOver := true, gameOverType := some GOType.checkmate,
                 gameOverColor := some (findKing m.positions m.turn) } := by
      unfold updateStatus
      rw [h1, h2]
      simp
    rw [e]
    dsimp only
    rw [isInCheck_update, HasLegalMove_update]
    refine ⟨hmt, fun _ => ⟨rfl, rfl, rfl⟩, fun h => absurd h.1 (by rw [h1]; simp),
      fun h => ?_⟩
    have := (hasAnyMove_iff m).mpr h
    rw [h2] at this
    cases this
  case true.true =>
    have e : updateStatus m = m := by
      unfold updateStatus
      rw [h1, h2]
      simp
    rw [e]
    have hmoves : HasLegalMove m m.turn := (hasAnyMove_iff m).mp h2
    exact ⟨hmt, fun h => absurd hmoves h.2, fun h => absurd hmoves h.2,
      fun _ => hmgo⟩


/-- C2 witness: the opening double pawn advance from the initial position
    flips the turn to black and leaves the game in progress. -/

theorem c2_terminal_status_witness :
    initialState.gameOver = false ∧
    (movePiece initialState ⟨6, 4⟩ ⟨4, 4⟩).turn = Color.w.flip ∧
    (movePiece initialState ⟨6, 4⟩ ⟨4, 4⟩).gameOver = false :=
  ⟨rfl, (c2_terminal_status initialState ⟨6, 4⟩ ⟨4, 4⟩ rfl).1,
   (c2_terminal_status initialState ⟨6, 4⟩ ⟨4, 4⟩ rfl).2.2.2
     ⟨⟨1, 0⟩, ⟨Kind.p, Color.b⟩, by decide, by decide, by decide, by decide,
      by decide, by decide, by decide⟩⟩


/-- C3 (confirmed).  A candidate destination whose relocation (on a copy of
    the grid, origin cleared) leaves the moving side in check is absent from
    the filtered move list even when present in the attack-pattern list; and
    every move of the filtered list leaves the own king out of check in that
    hypothetical position. -/

theorem c3_check_safety_filter (s : GameState) (fr : Sq) (t : Piece) (dst : Sq) :
    (dst ∈ getLegal s fr t true →
      isInCheck { s with positions := moveCopy s.positions fr dst } t.color = true →
      dst ∉ getLegal s fr t false) ∧
    (dst ∈ getLegal s fr t false →
      isInCheck { s with positions := moveCopy s.positions fr dst } t.color = false) := by
  refine ⟨fun _ hexp hmem => ?_, fun h => getLegal_false_safe s fr t dst h⟩
  rw [getLegal_false_safe s fr t dst hmem] at hexp
  cases hexp


/-- C3 witness: a white rook pinned on the e-file may step aside in the
    attack-pattern list but not in the filtered list. -/

theorem c3_check_safety_filter_witness :
    (⟨6, 3⟩ : Sq) ∈ getLegal sC3 ⟨6, 4⟩ ⟨Kind.r, Color.w⟩ true ∧
    isInCheck { sC3 with
      positions := moveCopy sC3.positions ⟨6, 4⟩ ⟨6, 3⟩ } Color.w = true ∧
    (⟨6, 3⟩ : Sq) ∉ getLegal sC3 ⟨6, 4⟩ ⟨Kind.r, Color.w⟩ false :=
  ⟨by decide, by decide,
   (c3_check_safety_filter sC3 ⟨6, 4⟩ ⟨Kind.r, Color.w⟩ ⟨6, 3⟩).1 (by decide) (by decide)⟩


/-- C4 (corrected).  After any movePiece, the en passant target is the
    midpoint square exactly when the moved cell held a pawn moving two
    ranks, and empty otherwise; a pawn of the opposite color standing
    diagonally adjacent to the target may capture onto it provided (the
    amendment) the capture does not leave its own king in check; and such a
    capture erases the square at the origin rank of the capturer and the
    file of the target, removing the advanced pawn. -/
theorem c4_en_passant_window (s : GameState) (fr dst : Sq) (c : Color) :
    ((movePiece s fr dst).enPassantTarget =
      if cellIsKind (getCell s.positions fr.r fr.f) Kind.p &&
          decide ((dst.r - fr.r).natAbs = 2) then
        some ⟨(fr.r + dst.r) / 2, fr.f⟩
      else none) ∧
    (s.enPassantTarget = some dst → dst.r = fr.r + pawnDir c →
      (dst.f = fr.f - 1 ∨ dst.f = fr.f + 1) → inB dst.r dst.f = true →
      isInCheck { s with positions := moveCopy s.positions fr dst } c = false →
      dst ∈ getLegal s fr ⟨Kind.p, c⟩ false) ∧
    (GridWF s.positions → getCell s.positions fr.r fr.f = some ⟨Kind.p, c⟩ →
      s.enPassantTarget = some dst → dst.r ≠ fr.r → dst.f ≠ fr.f →
      0 ≤ fr.r → fr.r < 8 → 0 ≤ dst.f → dst.f < 8 →
      getCell (movePiece s fr dst).positions fr.r dst.f = none) :=
  ⟨movePiece_enPassantTarget s fr dst,
   fun h1 h2 h3 h4 h5 => pawn_ep_capture_mem s fr dst c h1 h2 h3 h4 h5,
   fun hwf hc he hnr hnf b1 b2 b3 b4 =>
     movePiece_ep_removes s fr dst c hwf hc he hnr hnf b1 b2 b3 b4⟩


/-- C4 witness: a plain en passant capture on an unpinned board is produced
    by getLegal, clears the target for the next ply and removes the advanced
    pawn. -/
theorem c4_en_passant_window_witness :
    (movePiece s1C4w ⟨4, 3⟩ ⟨5, 4⟩).enPassantTarget = none ∧
    (⟨5, 4⟩ : Sq) ∈ getLegal s1C4w ⟨4, 3⟩ ⟨Kind.p, Color.b⟩ false ∧
    getCell (movePiece s1C4w ⟨4, 3⟩ ⟨5, 4⟩).positions 4 4 = none :=
  ⟨((c4_en_passant_window s1C4w ⟨4, 3⟩ ⟨5, 4⟩ Color.b).1).trans (by decide),
   (c4_en_passant_window s1C4w ⟨4, 3⟩ ⟨5, 4⟩ Color.b).2.1 (by decide) (by decide)
     (Or.inr (by decide)) (by decide) (by decide),
   (c4_en_passant_window s1C4w ⟨4, 3⟩ ⟨5, 4⟩ Color.b).2.2 ⟨rfl, by decide⟩
     (by decide) (by decide) (by decide) (by decide) (by decide) (by decide)
     (by decide) (by decide)⟩


/-- C4 counterexample to the claim as stated: after a white double pawn
    advance the target is set and a black pawn stands adjacent on the
    advanced rank, yet the capture is absent from the filtered move list
    because the capturing pawn is pinned to its king. -/

theorem c4_en_passant_window_counterexample :
    getCell s0C4.positions 6 4 = some ⟨Kind.p, Color.w⟩ ∧
    (movePiece s0C4 ⟨6, 4⟩ ⟨4, 4⟩).enPassantTarget = some ⟨5, 4⟩ ∧
    getCell (movePiece s0C4 ⟨6, 4⟩ ⟨4, 4⟩).positions 4 3 = some ⟨Kind.p, Color.b⟩ ∧
    (⟨5, 4⟩ : Sq) ∉
      getLegal (movePiece s0C4 ⟨6, 4⟩ ⟨4, 4⟩) ⟨4, 3⟩ ⟨Kind.p, Color.b⟩ false ∧
    (⟨5, 4⟩ : Sq) ∈
      getLegal (movePiece s0C4 ⟨6, 4⟩ ⟨4, 4⟩) ⟨4, 3⟩ ⟨Kind.p, Color.b⟩ true :=
  ⟨by decide, by decide, by decide, by decide, by decide⟩


/-- C5 (confirmed).  Once the game-over flag is set, a user move attempt
    (the mouse-down gating followed by the mouse-up membership test and
    movePiece call) leaves the state unchanged, and restart returns the
    fresh initial state. -/

theorem c5_no_moves_after_game_over (s : GameState) (fr dst : Sq) (hgo : s.gameOver = true) :
    tryMove s fr dst = s ∧ restart s = initialState := by
  refine ⟨?_, rfl⟩
  unfold tryMove
  cases hc : getCell s.positions fr.r fr.f
  · rfl
  · simp [hgo]


/-- C5 witness: a checkmated state absorbs an attempted opening move. -/

theorem c5_no_moves_after_game_over_witness :
    tryMove sOver ⟨6, 4⟩ ⟨4, 4⟩ = sOver ∧ restart sOver = initialState :=
  c5_no_moves_after_game_over sOver ⟨6, 4⟩ ⟨4, 4⟩ rfl


/-- C6 (confirmed).  From the initial position white has exactly 20 filtered
    legal moves, 16 of them by pawns and 4 by knights, and every black piece
    yields an empty generated move list through the turn gating of the input
    handler. -/

theorem c6_initial_move_counts :
    (movesOf initialState Color.w).length = 20 ∧
    ((movesOf initialState Color.w).filter fun m =>
      cellIsKind (getCell initialState.positions m.1.r m.1.f) Kind.p).length = 16 ∧
    ((movesOf initialState Color.w).filter fun m =>
      cellIsKind (getCell initialState.positions m.1.r m.1.f) Kind.n).length = 4 ∧
    (∀ (q : Sq) (p : Piece), getCell initialState.positions q.r q.f = some p →
      p.color = Color.b → clickMoves initialState q = []) := by
  refine ⟨by decide, by decide, by decide, ?_⟩
  intro q p hcell hcol
  unfold clickMoves
  rw [hcell]
  dsimp only
  rw [if_neg (by decide : ¬(initialState.gameOver = true))]
  rw [if_pos]
  rw [hcol]
  decide


/-- C6 witness: the black a8 rook yields no generated moves while white is
    to move. -/

theorem c6_initial_move_counts_witness :
    getCell initialState.positions 0 0 = some ⟨Kind.r, Color.b⟩ ∧
    clickMoves initialState ⟨0, 0⟩ = [] :=
  ⟨by decide, c6_initial_move_counts.2.2.2 ⟨0, 0⟩ ⟨Kind.r, Color.b⟩ (by decide) rfl⟩


/-- C7 (code bug).  The one-king-per-color invariant fails on a reachable
    state: after 1. e4 a5 2. f4 Ra6 3. f5 Re6 4. Ke2 Re5 5. Kf3 h6 6. Kg4
    Nc6 7. Kh5 g5 8. fxg6 (en passant) Rxh5 the black rook legally captures
    the white king, because the king-safety filter tests a copy in which the
    en passant victim still blocks the rook, so white could legally play a
    move that left its king attacked. -/
theorem c7_king_invariant_failure :
    Reachable c7s16 ∧ kingCount c7s16 Color.w = 0 ∧ kingCount c7s16 Color.b = 1 :=
  ⟨c7_game_reachable, by decide, by decide⟩


/-- C8 (confirmed).  The state-passing embedding of getLegal, in which the
    king-safety filter swaps the hypothetical grid in and back out exactly
    as the source does, returns the state it was given unchanged for either
    value of ignoreCheck, and its move list agrees with the pure getLegal
    used everywhere else; isInCheck and isAttacked perform no writes at all
    in the source and are embedded as pure reads. -/

theorem c8_getLegal_no_side_effects (s : GameState) (fr : Sq) (t : Piece) (ic : Bool) :
    (getLegalSt s fr t ic).2 = s ∧ (getLegalSt s fr t ic).1 = getLegal s fr t ic := by
  cases ic
  · exact ⟨(checkFilterLoop_spec fr t.color _ s).1, (checkFilterLoop_spec fr t.color _ s).2⟩
  · exact ⟨rfl, rfl⟩


/-- C9 (confirmed).  restart from any state rebuilds exactly the
    constructor state: the standard grid, all castling move-flags cleared,
    no en passant target, white to move, and no game-over status. -/

theorem c9_reset_round_trip (s : GameState) :
    restart s = initialState ∧
    (restart s).positions = initialPositions ∧
    (restart s).kingMoved = ⟨false, false⟩ ∧
    (restart s).rookMoved = ⟨⟨false, false⟩, ⟨false, false⟩⟩ ∧
    (restart s).enPassantTarget = none ∧
    (restart s).turn = Color.w ∧
    (restart s).gameOver = false ∧ (restart s).gameOverType = none :=
  ⟨rfl, rfl, rfl, rfl, rfl, rfl, rfl, rfl⟩


/-- C10 (confirmed).  Whenever movePiece moves a cell holding a king by two
    files, it unconditionally writes a rook of that color onto file 5
    (kingside) or file 3 (queenside) of that colors home rank, empties the
    home corner square, and sets the corresponding rook moved-flag,
    regardless of what occupied those squares. -/

theorem c10_castling_rook_relocation (s : GameState) (fr dst : Sq) (c : Color)
    (hwf : GridWF s.positions)
    (hcell : getCell s.positions fr.r fr.f = some ⟨Kind.k, c⟩)
    (habs : (dst.f - fr.f).natAbs = 2) :
    (fr.f < dst.f →
      getCell (movePiece s fr dst).positions (if c = Color.w then 7 else 0) 5 =
        some ⟨Kind.r, c⟩ ∧
      getCell (movePiece s fr dst).positions (if c = Color.w then 7 else 0) 7 = none ∧
      (((movePiece s fr dst).rookMoved).get c).h = true) ∧
    (dst.f < fr.f →
      getCell (movePiece s fr dst).positions (if c = Color.w then 7 else 0) 3 =
        some ⟨Kind.r, c⟩ ∧
      getCell (movePiece s fr dst).positions (if c = Color.w then 7 else 0) 0 = none ∧
      (((movePiece s fr dst).rookMoved).get c).a = true) := by
  unfold movePiece
  have hwf1 : GridWF (setCell (setCell s.positions dst.r dst.f
      (getCell s.positions fr.r fr.f)) fr.r fr.f none) :=
    GridWF_setCell _ _ _ _ (GridWF_setCell _ _ _ _ hwf)
  constructor <;> intro hlt <;>
    simp only [updateStatus_positions, updateStatus_rookMoved] <;>
    unfold applyEffects <;> dsimp only <;>
    rw [hcell] <;> cases c <;>
    simp only [cellIsKind, cellColor, decide_eq_true_eq, Bool.and_eq_true,
      decide_eq_true_iff, Option.some.injEq, Piece.mk.injEq,
      show (Kind.k = Kind.p) = False by simp, false_and, if_false, and_self,
      show (Kind.k = Kind.k) = True by simp, true_and, habs, if_true,
      show (Color.w = Color.b) = False by simp, show (Color.b = Color.w) = False by simp,
      and_false, reduceCtorEq] <;>
    rw [hcell] at hwf1
  case left.w =>
    rw [if_pos hlt]
    dsimp only
    refine ⟨?_, ?_, rfl⟩
    · rw [getCell_setCell_ne _ _ _ _ _ _ (Or.inr (by decide)),
        getCell_setCell_self _ _ _ _ (by decide) (by decide) (by decide) (by decide) hwf1]
    · rw [getCell_setCell_self _ _ _ _ (by decide) (by decide) (by decide) (by decide)
        (GridWF_setCell _ _ _ _ hwf1)]
  case left.b =>
    rw [if_pos hlt]
    dsimp only
    refine ⟨?_, ?_, rfl⟩
    · rw [getCell_setCell_ne _ _ _ _ _ _ (Or.inr (by decide)),
        getCell_setCell_self _ _ _ _ (by decide) (by decide) (by decide) (by decide) hwf1]
    · rw [getCell_setCell_self _ _ _ _ (by decide) (by decide) (by decide) (by decide)
        (GridWF_setCell _ _ _ _ hwf1)]
  case right.w =>
    rw [if_neg (by omega : ¬(dst.f > fr.f))]
    dsimp only
    refine ⟨?_, ?_, rfl⟩
    · rw [getCell_setCell_ne _ _ _ _ _ _ (Or.inr (by decide)),
        getCell_setCell_self _ _ _ _ (by decide) (by decide) (by decide) (by decide) hwf1]
    · rw [getCell_setCell_self _ _ _ _ (by decide) (by decide) (by decide) (by decide)
        (GridWF_setCell _ _ _ _ hwf1)]
  case right.b =>
    rw [if_neg (by omega : ¬(dst.f > fr.f))]
    dsimp only
    refine ⟨?_, ?_, rfl⟩
    · rw [getCell_setCell_ne _ _ _ _ _ _ (Or.inr (by decide)),
        getCell_setCell_self _ _ _ _ (by decide) (by decide) (by decide) (by decide) hwf1]
    · rw [getCell_setCell_self _ _ _ _ (by decide) (by decide) (by decide) (by decide)
        (GridWF_setCell _ _ _ _ hwf1)]


/-- C10 witness: a bare king moving two files toward the h-file conjures the
    rook relocation even though no rook is present in the corner. -/

theorem c10_castling_rook_relocation_witness :
    getCell (movePiece sC10 ⟨7, 4⟩ ⟨7, 6⟩).positions 7 5 = some ⟨Kind.r, Color.w⟩ ∧
    getCell (movePiece sC10 ⟨7, 4⟩ ⟨7, 6⟩).positions 7 7 = none ∧
    (((movePiece sC10 ⟨7, 4⟩ ⟨7, 6⟩).rookMoved).get Color.w).h = true :=
  (c10_castling_rook_relocation sC10 ⟨7, 4⟩ ⟨7, 6⟩ Color.w ⟨rfl, by decide⟩ (by decide)
    (by decide)).1 (by decide)
